import Mathlib

/-!
Shallow embedding of the transit-data ingestion and live-matching code
(`bustimes/management/commands/import_gtfs_worldwide.py`,
`vehicles/management/commands/import_gtfsr_worldwide.py`,
`vehicles/management/commands/import_gtfsr_translink_qld.py`)
together with theorems settling the specification claims.

Machine strings stay `String` where only identity matters; any character
processing (time parsing, name splitting) is done structurally over
`String.data` so that concrete evaluations reduce in the kernel.
-/

/- ### Python-level primitives -/

deriving instance DecidableEq for Except

/-- One decimal digit of a character, if it is a digit. -/
def charDigit (c : Char) : Option Nat :=
  if c.toNat ≥ 48 ∧ c.toNat ≤ 57 then some (c.toNat - 48) else none

/-- Accumulating decimal parse of a character list (`int()` on a digit string);
`none` when any character is not a digit or the list is empty. -/
def digitsToNat : List Char → Option Nat → Option Nat
  | [], acc => acc
  | c :: cs, acc =>
    match charDigit c, acc with
    | some d, some n => digitsToNat cs (some (n * 10 + d))
    | some d, none => digitsToNat cs (some d)
    | none, _ => none

/-- Parse a whole character list as a decimal number. -/
def parseNat (cs : List Char) : Option Nat :=
  digitsToNat cs none

/-- Split a character list on a single separator character, like
Python `str.split(sep)` for a one-character separator. -/
def splitOnChar (sep : Char) : List Char → List (List Char)
  | [] => [[]]
  | c :: cs =>
    let rest := splitOnChar sep cs
    if c = sep then [] :: rest
    else
      match rest with
      | r :: rs => (c :: r) :: rs
      | [] => [[c]]

/-- Split on the two-character separator `", "`, like Python
`str.split(", ")` (leftmost-first, non-overlapping). -/
def splitCommaSpace : List Char → List (List Char)
  | [] => [[]]
  | [c] => [[c]]
  | c :: d :: rest =>
    if c = ',' ∧ d = ' ' then
      match splitCommaSpace rest with
      | r :: rs => [] :: r :: rs
      | [] => [[], []]
    else
      match splitCommaSpace (d :: rest) with
      | r :: rs => (c :: r) :: rs
      | [] => [[c]]

/-- Substring containment test, like Python `pat in s`. -/
def hasSub (pat : List Char) : List Char → Bool
  | [] => pat.isEmpty
  | c :: cs => pat.isPrefixOf (c :: cs) || hasSub pat cs

/-- ASCII lower-casing of one character (model of `str.lower()` /
case-insensitive comparison on the ASCII names that occur in feeds). -/
def asciiLower (c : Char) : Char :=
  if c.toNat ≥ 65 ∧ c.toNat ≤ 90 then Char.ofNat (c.toNat + 32) else c

/-- Lower-cased character data of a string. -/
def lowerData (s : String) : List Char :=
  s.data.map asciiLower

/-- Python `str.strip()` (whitespace trim at both ends). -/
def stripChars (cs : List Char) : List Char :=
  ((cs.dropWhile Char.isWhitespace).reverse.dropWhile Char.isWhitespace).reverse

/-- `django.utils.dateparse.parse_duration` restricted to the
`HH:MM:SS` shape that GTFS stop-time fields carry: total seconds,
or `none` when the string is not three colon-separated numbers. -/
def parse_duration (s : String) : Option Int :=
  match splitOnChar ':' s.data with
  | [h, m, sec] =>
    match parseNat h, parseNat m, parseNat sec with
    | some h, some m, some sec => some ((h * 3600 + m * 60 + sec : Nat) : Int)
    | _, _, _ => none
  | _ => none

/-- A dynamically-typed Python value, as far as the embedded code
compares them: a string or an integer. -/
inductive PyVal where
  | pstr (s : String)
  | pint (n : Int)
deriving DecidableEq, Repr

/-- Python `==` between such values: values of different types are
never equal. -/
def pyEq : PyVal → PyVal → Bool
  | .pstr a, .pstr b => a == b
  | .pint a, .pint b => a == b
  | _, _ => false

/- ### GTFS static feed rows (`feed.*` tables handed back by gtfs_kit) -/

/-- One row of `stop_times.txt`. -/
structure StopTimeRow where
  trip_id : String
  stop_id : String
  stop_sequence : Nat
  arrival_time : String
  departure_time : String
  pickup_type : Option Int := none
  drop_off_type : Option Int := none
  timepoint : Option Int := none
deriving DecidableEq, Repr, Inhabited

/- ### Stop-time field computation (`handle_zipfile`, phase 2) -/

/-- Arrival/departure computation for one stop-time row
(import_gtfs_worldwide.py lines 487–490): departure is
`int(parse_duration(departure_time).total_seconds())`; arrival is left
`None` only when `line.arrival_time != departure` is false — but that
comparison pits the arrival *string* against the departure *integer*,
which in Python is never equal.  `none` (outer) models the uncaught
exception when a time string fails to parse. -/
def stopTimeFields (row : StopTimeRow) : Option (Int × Option Int) := do
  let departure ← parse_duration row.departure_time
  if pyEq (.pstr row.arrival_time) (.pint departure) then
    pure (departure, none)
  else do
    let arrival ← parse_duration row.arrival_time
    pure (departure, some arrival)

/- ### Trip start/end computation (`handle_zipfile`, phase 1) -/

/-- Insert into a key-sorted list, before the first element of
greater-or-equal key. -/
def insertSorted (key : α → Nat) (x : α) : List α → List α
  | [] => [x]
  | y :: ys => if key x ≤ key y then x :: y :: ys else y :: insertSorted key x ys

/-- Stable sort by a numeric key — extensionally the same function as
Python's stable `sorted(..., key=...)`. -/
def sortByKey (key : α → Nat) (l : List α) : List α :=
  l.foldr (insertSorted key) []

/-- `sorted(stop_times_by_trip[trip_id], key=lambda x: x.stop_sequence)`. -/
def sortStopTimes (rows : List StopTimeRow) : List StopTimeRow :=
  sortByKey (fun r => r.stop_sequence) rows

/-- Start, end and destination stop of a trip from its stop-time rows
(import_gtfs_worldwide.py lines 412–425): sort by sequence, read the
first row's departure time, the last row's arrival time and the last
row's stop id; `none` when the trip has no rows. -/
def tripTimesDest (rows : List StopTimeRow) : Option (String × String × String) :=
  let sorted := sortStopTimes rows
  match sorted.head?, sorted.getLast? with
  | some f, some l => some (f.departure_time, l.arrival_time, l.stop_id)
  | _, _ => none

/- ### Static feed rows (other tables) -/

/-- One row of `agency.txt`; a pandas `NaN` id is modelled as `none`. -/
structure AgencyRow where
  agency_id : Option String
  agency_name : String
  agency_url : Option String := none
deriving DecidableEq, Repr

/-- One row of `routes.txt`; non-string short/long names (`NaN`) are `none`. -/
structure RouteRow where
  route_id : String
  route_short_name : Option String
  route_long_name : Option String
  agency_id : Option String := none
  route_type : Int
deriving DecidableEq, Repr

/-- One row of `stops.txt`; coordinates kept as integer pairs. -/
structure StopRow where
  stop_id : String
  stop_name : String
  stop_lat : Int
  stop_lon : Int
deriving DecidableEq, Repr

/-- One row of `trips.txt`. -/
structure TripRow where
  route_id : String
  trip_id : String
  service_id : String
  direction_id : Option Int := none
  trip_headsign : Option String := none
  block_id : Option String := none
  trip_short_name : Option String := none
deriving DecidableEq, Repr

/- ### Persistent records (the relational store's rows) -/

/-- A `busstops.Operator` row. -/
structure OperatorRec where
  id : Nat
  noc : String
  name : String
  url : Option String
deriving DecidableEq, Repr

/-- A `busstops.Service` row, with its operator many-to-many set inlined. -/
structure ServiceRec where
  id : Nat
  service_code : String
  line_name : String
  description : String
  mode : String := ""
  current : Bool := true
  source : Option Nat := none
  operators : List Nat := []
  geometry : Option String := none
deriving DecidableEq, Repr

/-- A `bustimes.Route` row. -/
structure RouteRec where
  id : Nat
  source : Nat
  code : String
  line_name : String
  description : String
  service : Option Nat
deriving DecidableEq, Repr

/-- A `bustimes.Trip` row as built by the importer; `start` and `end_`
hold the raw feed time strings the code assigns. -/
structure TripRec where
  id : Nat
  route : Nat
  calendar : Nat
  inbound : Bool
  headsign : String
  ticket_machine_code : String
  block : String := ""
  vehicle_journey_code : String := ""
  operator : Option Nat := none
  start : Option String := none
  end_ : Option String := none
  destination : Option String := none
deriving DecidableEq, Repr

/-- A `bustimes.StopTime` row as streamed through the COPY channel. -/
structure StopTimeRec where
  stop_id : String
  arrival : Option Int
  departure : Int
  sequence : Nat
  trip : Nat
  timing_status : String
  pick_up : Bool
  set_down : Bool
  stop_code : String := ""
deriving DecidableEq, Repr

/-- A `busstops.StopPoint` row. -/
structure StopPointRec where
  atco_code : String
  common_name : String
  indicator : String := ""
  latlong : Int × Int
  locality_centre : Bool := false
  active : Bool := true
  source : Option Nat
  admin_area : Option String := none
deriving DecidableEq, Repr, Inhabited

/-- Per-source configuration (`DataSource.settings["gtfs"]` with the
defaults applied in `Command.handle`); `agencyPfx`/`stopPfx` carry what
the code keeps in the agency/stop id prefixing settings. -/
structure GtfsConfig where
  sourceId : Nat
  sourceName : String
  agencyPfx : String := ""
  stopPfx : String := ""
  operatorNoc : String := ""
  defaultOperator : String := ""
  operatorMatching : String := "noc"
  regionHandling : String := "auto"
  skipRouteLinks : Bool := false
deriving DecidableEq, Repr

/-- The persistent store touched by one static ingestion run, together
with the admin-area/region catalogues it reads and fresh-id counters. -/
structure IState where
  operators : List OperatorRec := []
  services : List ServiceRec := []
  routes : List RouteRec := []
  trips : List TripRec := []
  stop_times : List StopTimeRec := []
  stops : List StopPointRec := []
  admin_areas : List String := []
  region_first_area : List (String × String) := []
  nextOperatorId : Nat := 1
  nextServiceId : Nat := 1
  nextRouteId : Nat := 1
  nextTripId : Nat := 1
deriving DecidableEq, Repr

/-- The run-local dictionaries the command keeps on `self`. -/
structure RunState where
  operators : List (String × Nat) := []
  routes : List (String × Nat) := []
  route_operators : List (String × Option Nat) := []
  services : List Nat := []
deriving DecidableEq, Repr

/-- Python-dict assignment on an association list: replace in place,
append when the key is new. -/
def dictSet [DecidableEq α] (k : α) (v : β) : List (α × β) → List (α × β)
  | [] => [(k, v)]
  | (k', v') :: rest => if k' = k then (k, v) :: rest else (k', v') :: dictSet k v rest

/-- Python `dict.get`. -/
def dictGet [DecidableEq α] (m : List (α × β)) (k : α) : Option β :=
  (m.find? (fun p => decide (p.1 = k))).map (·.2)

/-- First whitespace-separated word, truncated to ten characters
(`name.split()[0][:10]`). -/
def firstWord10 (s : String) : String :=
  String.mk (((s.data.dropWhile Char.isWhitespace).takeWhile (fun c => ¬ c.isWhitespace)).take 10)

/- ### Entity reconciler (`handle_operator`, `handle_route`) -/

/-- `handle_operator` (import_gtfs_worldwide.py lines 106–150):
resolve the agency id (configured NOC, else first word of the agency
name, else first word of the source name), apply the agency prefix,
match an existing operator per the configured strategy, create it when
absent, and refresh its URL on change.  Returns the new store state and
the matched/created operator's id.  With an empty or unknown matching
strategy the Django query collapses to `filter(Q())`, i.e. the first
operator row of the table. -/
def handle_operator (cfg : GtfsConfig) (st : IState) (line : AgencyRow) :
    IState × Nat :=
  let agency_id :=
    match line.agency_id with
    | some a => a
    | none =>
      if cfg.operatorNoc ≠ "" then cfg.operatorNoc
      else if line.agency_name ≠ "" then firstWord10 line.agency_name
      else firstWord10 cfg.sourceName
  let agency_id := if cfg.agencyPfx ≠ "" then cfg.agencyPfx ++ agency_id else agency_id
  let name := line.agency_name
  let matched : Option OperatorRec :=
    if cfg.operatorMatching = "noc" then
      st.operators.find? (fun o => o.noc == agency_id)
    else if cfg.operatorMatching = "name" then
      st.operators.find? (fun o => lowerData o.name == lowerData name)
    else if cfg.operatorMatching = "url" ∧ line.agency_url.isSome then
      st.operators.find? (fun o => o.url == line.agency_url)
    else
      st.operators.head?
  match matched with
  | none =>
    let op : OperatorRec :=
      { id := st.nextOperatorId, noc := agency_id, name := name, url := line.agency_url }
    ({ st with operators := st.operators ++ [op],
               nextOperatorId := st.nextOperatorId + 1 }, op.id)
  | some op =>
    if op.url ≠ line.agency_url then
      let op' := { op with url := line.agency_url }
      ({ st with operators := st.operators.map (fun o => if o.id = op.id then op' else o) },
       op.id)
    else (st, op.id)

/-- Line name / description derivation at the top of `handle_route`
(lines 244–250): a missing short name is replaced by a space-free long
name, and a long name so promoted is cleared when shorter than five
characters. -/
def routeNames (line : RouteRow) : String × String :=
  let line_name := line.route_short_name.getD ""
  let description := line.route_long_name.getD ""
  if line_name = "" ∧ ¬ hasSub [' '] description.data then
    if description.data.length < 5 then (description, "")
    else (description, description)
  else (line_name, description)

/-- The `Q` object built in `handle_route` (lines 273–280), evaluated at
one candidate Service: an existing Route with the row's code pointing at
the Service, or the Service's stored `service_code` equal to the row's
code, or — when the line name is non-empty and not `"rail"` or
`"InterCity"` — a case-insensitive line-name match, or — otherwise, when
the description is non-empty — an exact description match.  All four
criteria are one disjunction. -/
def service_match_q (routes : List RouteRec) (route_id line_name description : String)
    (svc : ServiceRec) : Bool :=
  (routes.any fun r => r.code == route_id && r.service == some svc.id)
    || svc.service_code == route_id
    || (if line_name ≠ "" ∧ line_name ≠ "rail" ∧ line_name ≠ "InterCity" then
          lowerData svc.line_name == lowerData line_name
        else if description ≠ "" then svc.description == description
        else false)

/-- `services.filter(q).order_by("id").first()` (line 282). -/
def choose_service (services : List ServiceRec) (q : ServiceRec → Bool) :
    Option ServiceRec :=
  (sortByKey (fun s => s.id) (services.filter q)).head?

/-- Modelled from the spec: `gtfs_utils.MODES` is not among the sources;
the spec only relies on membership ("an unrecognized mode code is a soft
warning, mode left unset"), so a standard GTFS route-type table stands
in. -/
def MODES : List (Int × String) :=
  [(0, "tram"), (1, "underground"), (2, "rail"), (3, "bus"), (4, "ferry")]

/-- Modelled from the spec: deleting a Route's trip set removes the
trips' StopTime rows with them (the model classes with their on-delete
cascade are not among the sources; the spec says StopTimes are "only
replaced via Trip deletion"). -/
def deleteTripsOfRoute (st : IState) (routeId : Nat) : IState :=
  let dead := st.trips.filter (fun t => t.route = routeId)
  { st with
      trips := st.trips.filter (fun t => ¬ t.route = routeId),
      stop_times := st.stop_times.filter (fun s => dead.all (fun t => ¬ t.id = s.trip)) }

/-- The service-reconciliation half of `handle_route` (lines 242–302):
resolve the operator reference, pick the Service to update via
`service_match_q`/`choose_service` (or create one), upsert its fields
and operator set.  Returns the new state, the new run bookkeeping, the
saved Service and the resolved operator. -/
def handle_route_service (cfg : GtfsConfig) (st : IState) (run : RunState) (line : RouteRow) :
    IState × RunState × ServiceRec × Option Nat :=
  let (line_name, description) := routeNames line
  let agency_id : Option String :=
    match line.agency_id with
    | some a => some (if cfg.agencyPfx ≠ "" then cfg.agencyPfx ++ a else a)
    | none => none
  let agency_id : Option String :=
    match agency_id with
    | some a => if a = "" then none else some a
    | none =>
      if run.operators.length = 1 then some (run.operators.headI.1)
      else if cfg.defaultOperator ≠ "" then some cfg.defaultOperator
      else none
  let operatorId : Option Nat :=
    match agency_id with
    | some a => dictGet run.operators a
    | none => none
  let candidates := st.services.filter (fun s =>
    match operatorId with
    | some op => s.operators.contains op
    | none => s.operators.isEmpty)
  let q := service_match_q st.routes line.route_id line_name description
  let pick : ServiceRec × Bool × IState :=
    match choose_service candidates q with
    | some s => (s, false, st)
    | none =>
      ({ id := st.nextServiceId, service_code := "", line_name := "", description := "",
         source := some cfg.sourceId : ServiceRec }, true,
       { st with nextServiceId := st.nextServiceId + 1 })
  let svc0 := pick.1
  let created := pick.2.1
  let st := pick.2.2
  let svc1 := { svc0 with
    service_code := line.route_id,
    line_name := line_name,
    description := description,
    mode := match dictGet MODES line.route_type with
            | some m => m
            | none => svc0.mode,
    current := true,
    source := some cfg.sourceId }
  let svc2 :=
    match operatorId with
    | some op =>
      if run.services.contains svc1.id then
        { svc1 with operators :=
            if svc1.operators.contains op then svc1.operators else svc1.operators ++ [op] }
      else { svc1 with operators := [op] }
    | none => svc1
  let newServices :=
    if created then st.services ++ [svc2]
    else st.services.map (fun s => if s.id = svc2.id then svc2 else s)
  let st := { st with services := newServices }
  let newRunServices :=
    if run.services.contains svc2.id then run.services else run.services ++ [svc2.id]
  let run := { run with services := newRunServices }
  (st, run, svc2, operatorId)

/-- `Route.objects.update_or_create({...}, source=..., code=...)` plus
the trip wipe on an existing Route (lines 304–314). -/
def route_upsert (cfg : GtfsConfig) (st : IState) (svc : ServiceRec) (route_id : String) :
    IState × Nat :=
  match st.routes.find? (fun r => r.source == cfg.sourceId && r.code == route_id) with
  | some r =>
    let r' := { r with line_name := svc.line_name, description := svc.description,
                       service := some svc.id }
    let st := { st with routes := st.routes.map (fun x => if x.id = r.id then r' else x) }
    (deleteTripsOfRoute st r.id, r.id)
  | none =>
    let r : RouteRec :=
      { id := st.nextRouteId, source := cfg.sourceId, code := route_id,
        line_name := svc.line_name, description := svc.description,
        service := some svc.id }
    ({ st with routes := st.routes ++ [r], nextRouteId := st.nextRouteId + 1 }, r.id)

/-- `handle_route` (lines 242–316): the service half followed by the
Route upsert and the run-dict bookkeeping (lines 315–316). -/
def handle_route (cfg : GtfsConfig) (st : IState) (run : RunState) (line : RouteRow) :
    IState × RunState :=
  let s := handle_route_service cfg st run line
  let u := route_upsert cfg s.1 s.2.2.1 line.route_id
  (u.1, { s.2.1 with
      routes := dictSet line.route_id u.2 s.2.1.routes,
      route_operators := dictSet line.route_id s.2.2.2 s.2.1.route_operators })

/-- The service half touches only the service table and its id counter:
routes, trips and stop-times pass through unchanged. -/
theorem handle_route_service_frame (cfg : GtfsConfig) (st : IState) (run : RunState)
    (line : RouteRow) :
    (handle_route_service cfg st run line).1.routes = st.routes ∧
    (handle_route_service cfg st run line).1.trips = st.trips ∧
    (handle_route_service cfg st run line).1.stop_times = st.stop_times := by
  unfold handle_route_service
  refine ⟨?_, ?_, ?_⟩ <;> (dsimp only; split <;> rfl)

/- ### Stop reconciler (`do_stops`) -/

/-- Candidate StopPoint built from one feed stop row (do_stops lines
162–180): prefixed code, a `", stop"`-suffixed name split into name and
indicator when it contains exactly one `", "`, name truncated to 48. -/
def build_stop (cfg : GtfsConfig) (line : StopRow) : StopPointRec :=
  let stop_id := if cfg.stopPfx ≠ "" then cfg.stopPfx ++ line.stop_id else line.stop_id
  let stop : StopPointRec :=
    { atco_code := stop_id, common_name := line.stop_name,
      latlong := (line.stop_lon, line.stop_lat), source := some cfg.sourceId }
  let stop :=
    if hasSub [',', ' ', 's', 't', 'o', 'p'] stop.common_name.data
        ∧ (splitCommaSpace stop.common_name.data).length = 2 then
      match splitCommaSpace stop.common_name.data with
      | [n, i] => { stop with common_name := String.mk n, indicator := String.mk i }
      | _ => stop
    else stop
  { stop with common_name := String.mk (stop.common_name.data.take 48) }

/-- Admin-area assignment for one new stop (do_stops lines 210–230):
numeric three-character code prefixes are matched against the admin-area
catalogue; otherwise a non-`auto` region setting donates its region's
first admin area. -/
def assign_admin_area (cfg : GtfsConfig) (st : IState) (s : StopPointRec) : StopPointRec :=
  let aa := String.mk (s.atco_code.data.take 3)
  if aa.data ≠ [] ∧ aa.data.all Char.isDigit then
    if st.admin_areas.contains aa then { s with admin_area := some aa } else s
  else if cfg.regionHandling ≠ "" ∧ cfg.regionHandling ≠ "auto" then
    match dictGet st.region_first_area cfg.regionHandling with
    | some a => { s with admin_area := some a }
    | none => s
  else s

/-- The prefixed-code → candidate map built in the first loop of
`do_stops`. -/
def stopCands (cfg : GtfsConfig) (rows : List StopRow) : List (String × StopPointRec) :=
  rows.foldl (fun m line => dictSet (build_stop cfg line).atco_code (build_stop cfg line) m) []

/-- The `stops_to_update` membership condition (lines 191–200): exists,
owned by this source or none, and coordinates or name changed. -/
def stopUpdateCond (cfg : GtfsConfig) (st : IState) (p : String × StopPointRec) : Bool :=
  match st.stops.find? (fun q => q.atco_code == p.1) with
  | some e =>
    (e.source == some cfg.sourceId || e.source == none)
      && (e.latlong ≠ p.2.latlong || e.common_name ≠ p.2.common_name)
  | none => false

/-- Effect of `bulk_update(stops_to_update, [common_name, latlong,
indicator, source])` on one stored row. -/
def stopUpdateFn (cfg : GtfsConfig) (st : IState) (rows : List StopRow)
    (e : StopPointRec) : StopPointRec :=
  match ((stopCands cfg rows).filter (stopUpdateCond cfg st)).find?
      (fun p => p.1 == e.atco_code) with
  | some p => { e with common_name := p.2.common_name, latlong := p.2.latlong,
                       indicator := p.2.indicator, source := p.2.source }
  | none => e

/-- The `stops_to_create` list with admin-area assignment applied
(lines 188–231). -/
def stopCreates (cfg : GtfsConfig) (st : IState) (rows : List StopRow) :
    List StopPointRec :=
  let creates := ((stopCands cfg rows).filter
    (fun p => (st.stops.find? (fun q => q.atco_code == p.1)).isNone)).map (·.2)
  if cfg.regionHandling ≠ "skip" then creates.map (assign_admin_area cfg st)
  else creates

/-- `do_stops` (lines 152–240): build the prefixed-code → candidate map,
bulk-update existing stops that this source may touch and whose
coordinates or name changed, assign admin areas to the new stops unless
skipped, bulk-create them, and return the code → record lookup. -/
def do_stops (cfg : GtfsConfig) (st : IState) (rows : List StopRow) :
    IState × List (String × StopPointRec) :=
  let cands := stopCands cfg rows
  let stFinal := { st with
    stops := st.stops.map (stopUpdateFn cfg st rows) ++ stopCreates cfg st rows }
  let lookup := (cands.map (·.1)).filterMap (fun c =>
    (stFinal.stops.find? (fun p => p.atco_code == c)).map (fun p => (c, p)))
  (stFinal, lookup)

/- ### Trip / StopTime loader (`handle_zipfile` phases) -/

/-- `stop_times_by_trip` grouping (lines 371–377), preserving feed
order within each trip. -/
def groupStopTimes (rows : List StopTimeRow) : List (String × List StopTimeRow) :=
  rows.foldl (fun m line =>
    match dictGet m line.trip_id with
    | some g => dictSet line.trip_id (g ++ [line]) m
    | none => dictSet line.trip_id [line] m) []

/-- Accumulator of the trip-materialization loop (lines 380–445). -/
structure TripsAcc where
  st : IState
  created_trip_ids : List String := []
  trip_id_to_pk : List (String × Nat) := []
  valid_trips : List TripRec := []
  trips_with_start : Nat := 0
  trips_without_start : Nat := 0
deriving DecidableEq, Repr

/-- Store-assigned primary keys for one flushed batch. -/
def assignIds (n : Nat) : List TripRec → List TripRec
  | [] => []
  | t :: ts => { t with id := n } :: assignIds (n + 1) ts

/-- `Trip.objects.bulk_create(valid_trips)` plus the
`trip_id_to_pk` bookkeeping (lines 434–443). -/
def flushTrips (acc : TripsAcc) : TripsAcc :=
  let ts := assignIds acc.st.nextTripId acc.valid_trips
  { acc with
      st := { acc.st with trips := acc.st.trips ++ ts,
                          nextTripId := acc.st.nextTripId + ts.length },
      trip_id_to_pk := ts.foldl (fun m t => dictSet t.ticket_machine_code t.id m)
        acc.trip_id_to_pk,
      valid_trips := [] }

/-- The `block` derivation (lines 395–399). -/
def tripBlock (block_id : Option String) : String :=
  match block_id with
  | none => ""
  | some b =>
    let s := String.mk (stripChars b.data)
    if s = "" ∨ s = "N/A" ∨ s = "n/a" then "" else s

/-- One iteration of the trip loop (lines 387–438): indexing
`self.routes[...]`, `calendars[...]` and `self.route_operators[...]`
raises on a missing key, which aborts the run with the store as already
written.  A trip with no stop-time rows is counted, not inserted. -/
def tripsStep (cfg : GtfsConfig) (run : RunState) (calendars : List (String × Nat))
    (grouped : List (String × List StopTimeRow)) (stops : List (String × StopPointRec))
    (acc : TripsAcc) (line : TripRow) : Except (String × IState) TripsAcc := do
  let routeId ←
    match dictGet run.routes line.route_id with
    | some r => pure r
    | none => throw ("KeyError: route " ++ line.route_id, acc.st)
  let cal ←
    match dictGet calendars line.service_id with
    | some c => pure c
    | none => throw ("KeyError: calendar " ++ line.service_id, acc.st)
  let operatorId ←
    match dictGet run.route_operators line.route_id with
    | some o => pure o
    | none => throw ("KeyError: route operator " ++ line.route_id, acc.st)
  let trip : TripRec :=
    { id := 0, route := routeId, calendar := cal,
      inbound := line.direction_id.getD 0 = 1,
      headsign := line.trip_headsign.getD "",
      ticket_machine_code := line.trip_id,
      block := tripBlock line.block_id,
      vehicle_journey_code := line.trip_short_name.getD "",
      operator := operatorId }
  let trip :=
    match dictGet grouped line.trip_id with
    | some rows =>
      match tripTimesDest rows with
      | some (s, e, lastStop) =>
        let stop_id := if cfg.stopPfx ≠ "" then cfg.stopPfx ++ lastStop else lastStop
        { trip with start := some s, end_ := some e,
                    destination := (dictGet stops stop_id).map (·.atco_code) }
      | none => trip
    | none => trip
  if trip.start = none then
    pure { acc with trips_without_start := acc.trips_without_start + 1 }
  else
    let acc := { acc with
      valid_trips := acc.valid_trips ++ [trip],
      created_trip_ids := acc.created_trip_ids ++ [line.trip_id],
      trips_with_start := acc.trips_with_start + 1 }
    if acc.valid_trips.length ≥ 1000 then pure (flushTrips acc) else pure acc

/-- The whole trip loop with the final flush (lines 387–443). -/
def tripsPhase (cfg : GtfsConfig) (run : RunState) (calendars : List (String × Nat))
    (grouped : List (String × List StopTimeRow)) (stops : List (String × StopPointRec))
    (acc : TripsAcc) : List TripRow → Except (String × IState) TripsAcc
  | [] => pure (flushTrips acc)
  | l :: ls => do
    tripsPhase cfg run calendars grouped stops (← tripsStep cfg run calendars grouped stops acc l) ls

/-- Pickup/drop-off enumeration mapping (lines 465–485):
`{0: allowed, 1: not allowed, other or missing: default allowed}`. -/
def boardingFlag (v : Option Int) : Bool :=
  match v with
  | none => true
  | some 0 => true
  | some 1 => false
  | some _ => true

/-- One iteration of the stop-time COPY loop (lines 460–516): compute
timing status, pickup/set-down flags and arrival/departure, write the
row when its trip survived phase 1, count it as skipped otherwise.  An
unparseable time or a created trip missing from the pk map raises. -/
def stopTimesStep (cfg : GtfsConfig) (created_trip_ids : List String)
    (trip_id_to_pk : List (String × Nat)) (st : IState) (line : StopTimeRow) :
    Except (String × IState) IState := do
  let timing_status := if line.timepoint.getD 1 = 1 then "PTP" else "OTH"
  let pick_up := boardingFlag line.pickup_type
  let set_down := boardingFlag line.drop_off_type
  let fields ←
    match stopTimeFields line with
    | some f => pure f
    | none => throw ("unparseable stop time", st)
  let stop_id := if cfg.stopPfx ≠ "" then cfg.stopPfx ++ line.stop_id else line.stop_id
  if created_trip_ids.contains line.trip_id then do
    let pk ←
      match dictGet trip_id_to_pk line.trip_id with
      | some pk => pure pk
      | none => throw ("KeyError: trip pk " ++ line.trip_id, st)
    let row : StopTimeRec :=
      { stop_id := stop_id, arrival := fields.2, departure := fields.1,
        sequence := line.stop_sequence, trip := pk, timing_status := timing_status,
        pick_up := pick_up, set_down := set_down, stop_code := "" }
    pure { st with stop_times := st.stop_times ++ [row] }
  else
    pure st

/-- The whole stop-time streaming loop. -/
def stopTimesPhase (cfg : GtfsConfig) (created_trip_ids : List String)
    (trip_id_to_pk : List (String × Nat)) (st : IState) :
    List StopTimeRow → Except (String × IState) IState
  | [] => pure st
  | l :: ls => do
    stopTimesPhase cfg created_trip_ids trip_id_to_pk
      (← stopTimesStep cfg created_trip_ids trip_id_to_pk st l) ls

/-- Post-pass clean-up (lines 553–565): Routes of this source not
recreated in this run are detached (`service=None`), and current
Services of this source left without any recreated Route are retired
(`current=False`). -/
def cleanupOldRoutes (cfg : GtfsConfig) (run : RunState) (st : IState) : IState :=
  let newRouteIds := run.routes.map (·.2)
  let routes' := st.routes.map (fun r =>
    if r.source = cfg.sourceId ∧ ¬ newRouteIds.contains r.id then { r with service := none }
    else r)
  let services' := st.services.map (fun s =>
    if s.current && (s.source == some cfg.sourceId)
        && !(routes'.any (fun r => newRouteIds.contains r.id && r.service == some s.id)) then
      { s with current := false }
    else s)
  { st with routes := routes', services := services' }

/-- The static feed as handed back by gtfs_kit, together with the
calendar mapping the external `get_calendars` collaborator computes for
it (`bustimes.gtfs_utils` is not among the sources). -/
structure Feed where
  agency : Option (List AgencyRow) := none
  routes : List RouteRow := []
  stops : List StopRow := []
  trips : List TripRow := []
  stop_times : List StopTimeRow := []
  calendars : List (String × Nat) := []
deriving DecidableEq, Repr

/-- The agencies phase of `handle_zipfile` (lines 332–340): process
each agency row, keying the run-local operator dict by agency id (name
when absent). -/
def agenciesPhase (cfg : GtfsConfig) (st : IState) (run : RunState) (feed : Feed) :
    IState × RunState :=
  match feed.agency with
  | some rows =>
    rows.foldl (fun p line =>
      let key := line.agency_id.getD line.agency_name
      let (st', opId) := handle_operator cfg p.1 line
      (st', { p.2 with operators := dictSet key opId p.2.operators }))
      (st, run)
  | none => (st, run)

/-- The routes phase of `handle_zipfile` (lines 342–354). -/
def routesPhase (cfg : GtfsConfig) (p : IState × RunState) (rows : List RouteRow) :
    IState × RunState :=
  rows.foldl (fun p line => handle_route cfg p.1 p.2 line) p

/-- The state, run bookkeeping and stop lookup after the phases that
precede trip materialization (agencies, routes, stops). -/
def preTripState (cfg : GtfsConfig) (st : IState) (feed : Feed) :
    IState × RunState × List (String × StopPointRec) :=
  let a := agenciesPhase cfg st {} feed
  let r := routesPhase cfg a feed.routes
  let s := do_stops cfg r.1 feed.stops
  (s.1, r.2, s.2)

/-- `handle_zipfile` (lines 318–569) without the shape-geometry pass
(whose exceptions the code swallows and which only writes
`Service.geometry` from an external library) and without the route-link
pass, which is modelled separately (`do_route_links`): process agencies,
then routes, then stops, then trips, then stop times, then clean up old
routes and retire services.  There is no transaction wrapper: every
phase writes directly to the store, and an error aborts the run with
the state written so far (carried in the `Except.error` payload). -/
def handle_zipfile (cfg : GtfsConfig) (st : IState) (feed : Feed) :
    Except (String × IState) IState := do
  let p := preTripState cfg st feed
  let grouped := groupStopTimes feed.stop_times
  let acc ← tripsPhase cfg p.2.1 feed.calendars grouped p.2.2
    { st := p.1 } feed.trips
  let stFinal ← stopTimesPhase cfg acc.created_trip_ids acc.trip_id_to_pk acc.st
    feed.stop_times
  pure (cleanupOldRoutes cfg p.2.1 stFinal)

/- ### Route-link extractor (`do_route_links`, lines 572–638) -/

/-- Result type of `shapely.ops.substring`: a single connected line, or
any other geometry type (point, multi-line, …). -/
inductive SubGeom where
  | lineString (wkt : String)
  | other
deriving DecidableEq, Repr

/-- One shape's geometry, abstracted to the two shapely operations the
code applies to it: `geometry.project(point)` and
`substring(geometry, a, b)`. -/
structure ShapeGeom where
  proj : Int × Int → Int
  sub : Int → Int → SubGeom

/-- A representative trip per `shape_id`
(`feed.get_trips(as_gdf=True).drop_duplicates("shape_id")`). -/
structure ShapeTrip where
  trip_id : String
  route_id : String
  geometry : Option ShapeGeom

/-- Key of a RouteLink: `(service_id, from_stop_id, to_stop_id)`. -/
abbrev RLKey := Option Nat × String × String

/-- A `bustimes.RouteLink` row as built by `do_route_links`; `id` is
`some pk` when it reuses an existing row. -/
structure RouteLinkRec where
  id : Option Nat
  service_id : Option Nat
  from_stop_id : String
  to_stop_id : String
  geometry : String
deriving DecidableEq, Repr

/-- `pairwise(...)` over a list. -/
def pairwiseList (l : List α) : List (α × α) :=
  l.zip l.tail

/-- One consecutive stop pair of the inner loop (lines 595–633): skip
and reset the cursor on a duplicate key; otherwise project the first
stop when the cursor is unset (`if not start_dist:` — `None` or `0.0`),
project the second stop, take the shape substring, keep it only when it
is a single `LineString`, and advance the cursor to the second stop's
projected distance.  Missing stops raise a `KeyError`. -/
def routeLinkStep (g : ShapeGeom) (stopPfx : String) (service : Option Nat)
    (existing : List (RLKey × Nat)) (stops : List (String × StopPointRec))
    (state : Option Int × List (RLKey × RouteLinkRec)) (p : StopTimeRow × StopTimeRow) :
    Except String (Option Int × List (RLKey × RouteLinkRec)) := do
  let from_stop_id := if stopPfx ≠ "" then stopPfx ++ p.1.stop_id else p.1.stop_id
  let to_stop_id := if stopPfx ≠ "" then stopPfx ++ p.2.stop_id else p.2.stop_id
  let key : RLKey := (service, from_stop_id, to_stop_id)
  if (dictGet state.2 key).isSome then
    pure (none, state.2)
  else do
    let needProj :=
      match state.1 with
      | none => true
      | some d => d = 0
    let start_dist ←
      if needProj then
        match dictGet stops from_stop_id with
        | some stop_a => pure (g.proj stop_a.latlong)
        | none => throw ("KeyError: stop " ++ from_stop_id)
      else
        match state.1 with
        | some d => pure d
        | none => throw "unreachable"
    let end_dist ←
      match dictGet stops to_stop_id with
      | some stop_b => pure (g.proj stop_b.latlong)
      | none => throw ("KeyError: stop " ++ to_stop_id)
    let geom := g.sub start_dist end_dist
    let links :=
      match geom with
      | .lineString w =>
        let rl : RouteLinkRec :=
          match dictGet existing key with
          | some pk =>
            { id := some pk, service_id := key.1, from_stop_id := key.2.1,
              to_stop_id := key.2.2, geometry := w }
          | none =>
            { id := none, service_id := key.1, from_stop_id := key.2.1,
              to_stop_id := key.2.2, geometry := w }
        dictSet key rl state.2
      | .other => state.2
    pure (some end_dist, links)

/-- The inner pair loop of `do_route_links` for one shape. -/
def routeLinkPairs (g : ShapeGeom) (stopPfx : String) (service : Option Nat)
    (existing : List (RLKey × Nat)) (stops : List (String × StopPointRec))
    (state : Option Int × List (RLKey × RouteLinkRec)) :
    List (StopTimeRow × StopTimeRow) →
    Except String (Option Int × List (RLKey × RouteLinkRec))
  | [] => pure state
  | p :: ps => do
    routeLinkPairs g stopPfx service existing stops
      (← routeLinkStep g stopPfx service existing stops state p) ps

/-- `do_route_links` (lines 572–638): walk one representative trip per
shape, run the pair loop with a fresh cursor but a run-shared link map,
and return that map (the caller splits it into geometry updates of
existing rows and inserts of new ones). -/
def do_route_links (stopPfx : String) (routes : List (String × RouteRec))
    (stops : List (String × StopPointRec)) (existing : List (RLKey × Nat))
    (shapeTrips : List ShapeTrip) (stop_times : List StopTimeRow) :
    Except String (List (RLKey × RouteLinkRec)) := do
  let rec go (links : List (RLKey × RouteLinkRec)) :
      List ShapeTrip → Except String (List (RLKey × RouteLinkRec))
    | [] => pure links
    | t :: ts => do
      match t.geometry with
      | none => go links ts
      | some g => do
        let route ←
          match dictGet routes t.route_id with
          | some r => pure r
          | none => throw ("KeyError: route " ++ t.route_id)
        let pairs := pairwiseList (stop_times.filter (fun l => l.trip_id == t.trip_id))
        let r ← routeLinkPairs g stopPfx route.service existing stops (none, links) pairs
        go r.2 ts
  go [] shapeTrips

/- ### Realtime (GTFS-R) vehicle matching -/

/-- Gregorian leap year. -/
def isLeapYear (y : Nat) : Bool :=
  y % 4 = 0 && (y % 100 ≠ 0 || y % 400 = 0)

/-- Days in a month of the proleptic Gregorian calendar. -/
def daysInMonth (y m : Nat) : Nat :=
  if m = 2 then (if isLeapYear y then 29 else 28)
  else if m = 4 ∨ m = 6 ∨ m = 9 ∨ m = 11 then 30
  else 31

/-- Day number of a Gregorian date counted from 1970-01-01
(standard civil-from-days inverse, as Python's `datetime` arithmetic
realises it). -/
def daysFromCivil (y m d : Nat) : Int :=
  let yy : Int := if m ≤ 2 then (y : Int) - 1 else (y : Int)
  let era : Int := (if yy ≥ 0 then yy else yy - 399) / 400
  let yoe : Int := yy - era * 400
  let mp : Int := ((m : Int) + 9) % 12
  let doy : Int := (153 * mp + 2) / 5 + (d : Int) - 1
  let doe : Int := yoe * 365 + yoe / 4 - yoe / 100 + doy
  era * 146097 + doe - 719468

/-- `datetime.strptime(start_date + " 12:00:00", "%Y%m%d %H:%M:%S")`,
reduced to the day number it denotes: requires exactly eight digits
forming a valid date; `none` models the `ValueError` strptime raises
otherwise (in particular on the empty string a protobuf leaves for an
absent field). -/
def strptime_noon (sd : String) : Option Int :=
  let cs := sd.data
  if cs.length = 8 ∧ cs.all Char.isDigit then
    match parseNat (cs.take 4), parseNat ((cs.drop 4).take 2), parseNat (cs.drop 6) with
    | some y, some m, some d =>
      if 1 ≤ m ∧ m ≤ 12 ∧ 1 ≤ d ∧ d ≤ daysInMonth y m then some (daysFromCivil y m d)
      else none
    | _, _, _ => none
  else none

/-- A naive-then-localized datetime: seconds on the naive timeline plus
the attached IANA timezone name, or the "now in tz" fallback value. -/
inductive JDateTime where
  | anchored (secs : Int) (tz : String)
  | nowInTz (tz : String)
deriving DecidableEq, Repr

/-- The `trip` descriptor of a GTFS-R vehicle position; protobuf string
fields default to `""` and numeric fields to `0` when absent. -/
structure RtTripDesc where
  trip_id : String := ""
  route_id : String := ""
  start_date : String := ""
  start_time : String := ""
  direction_id : Int := 0
deriving DecidableEq, Repr

/-- One GTFS-R feed entity (vehicle position). -/
structure RtItem where
  trip : RtTripDesc := {}
  bearing : Int := 0
  longitude : Int := 0
  latitude : Int := 0
  occupancy_status : Int := 0
  vehicle_id : String := ""
  timestamp : Nat := 0
deriving DecidableEq, Repr

/-- A `vehicles.VehicleJourney` row as built by `get_journey`. -/
structure JourneyRec where
  code : String
  datetime : Option JDateTime := none
  service : Option Nat := none
  trip : Option Nat := none
  destination : String := ""
  route_name : String := ""
deriving DecidableEq, Repr

/-- A `vehicles.Vehicle` row, with its cached latest journey. -/
structure VehicleRec where
  id : Nat
  code : String := ""
  operator : Option Nat := none
  latest_journey : Option JourneyRec := none
deriving DecidableEq, Repr

/-- The schedule model the live matcher reads. -/
structure RtDB where
  services : List ServiceRec := []
  routes : List RouteRec := []
  trips : List TripRec := []
deriving DecidableEq, Repr

/-- Whether a stored Trip's start (a raw feed time string in this model,
an interval in the store) equals a parsed start time-of-day
(`trips.filter(start=start_time)`). -/
def tripStartMatches (t : TripRec) (secs : Int) : Bool :=
  match t.start with
  | some s => parse_duration s == some secs
  | none => false

/-- `journey.code.split("_", 1)[1]`-style suffix: everything after the
first underscore (the list unchanged when there is none). -/
def afterFirstUnderscore (cs : List Char) : List Char :=
  if hasSub ['_'] cs then ((cs.dropWhile (fun c => ¬ c = '_')).drop 1) else cs

/-- The shared service-resolution cascade (worldwide lines 119–133,
Translink lines 117–131): current Services of the source whose Route
has the report's route code, else current Services of the source one of
whose Routes owns a Trip with the journey code; first one wins. -/
def resolveService (db : RtDB) (sourceId : Nat) (route_id code : String) : Option Nat :=
  let services1 := db.services.filter (fun s =>
    s.current && db.routes.any (fun r =>
      r.source == sourceId && r.code == route_id && r.service == some s.id))
  let services :=
    if services1.isEmpty then
      db.services.filter (fun s =>
        s.current && db.routes.any (fun r =>
          r.source == sourceId && r.service == some s.id
            && db.trips.any (fun t => t.route == r.id && t.ticket_machine_code == code)))
    else services1
  (services.head?).map (·.id)

/-- The `route__code__endswith` rescue lookup with `.get()` semantics
(worldwide lines 144–153): the joined Service row when there is exactly
one matching Route row, `none` on zero or several
(`DoesNotExist` / `MultipleObjectsReturned` are passed). -/
def rescueService (db : RtDB) (sourceId : Nat) (route_id : String) : Option Nat :=
  let suffix :=
    if hasSub ['_'] route_id.data then afterFirstUnderscore route_id.data
    else route_id.data
  let rows := db.routes.filter (fun r =>
    r.source == sourceId && List.isSuffixOf ('_' :: suffix) r.code.data && r.service.isSome)
  match rows with
  | [r] => r.service
  | _ => none

/-- Calendar disambiguation (worldwide lines 163–170): when several
candidate trips remain, keep those whose calendar the external
`get_calendars` collaborator reports active on the start date, and take
the first; `activeCals` stands for that collaborator. -/
def pickTrip (activeCals : Int → List Nat → List Nat) (days : Int)
    (trips : List TripRec) : Option TripRec :=
  match trips with
  | [] => none
  | [t] => some t
  | _ =>
    let calendars := activeCals days (trips.map (·.calendar))
    (trips.filter (fun t => calendars.contains t.calendar)).head?

/-- The GTFS-Realtime occupancy-status table shared by both realtime
commands (lines 19–29 in each file). -/
def occupancies : List (Int × String) :=
  [(0, "Empty"), (1, "Many seats available"), (2, "Few seats available"),
   (3, "Standing room only"), (4, "Crushed standing room only"), (5, "Full"),
   (6, "Not accepting passengers"), (7, "No data available"), (8, "Not boardable")]

/-- A `vehicles.VehicleLocation` row. -/
structure VehicleLocationRec where
  heading : Option Int
  latlong : Int × Int
  occupancy : Option String
deriving DecidableEq, Repr

namespace GtfsrWorldwide

/-- `get_journey` of import_gtfsr_worldwide.py (lines 99–190): parse the
noon-anchored start datetime *before* anything else (an absent or
malformed `start_date`/`start_time` raises), short-circuit to the
vehicle's cached latest journey on a matching code, then resolve
Service and Trip through the cascade and assemble the journey; adopt
the trip's operator onto an operator-less vehicle. -/
def get_journey (db : RtDB) (activeCals : Int → List Nat → List Nat) (sourceId : Nat)
    (tz : String) (item : RtItem) (vehicle : VehicleRec) :
    Except String (JourneyRec × VehicleRec) := do
  let days ←
    match strptime_noon item.trip.start_date with
    | some d => pure d
    | none => throw "ValueError: strptime"
  let startSecs ←
    match parse_duration item.trip.start_time with
    | some s => pure s
    | none => throw "TypeError: unparseable start_time"
  let start_date_time := JDateTime.anchored (days * 86400 + 43200 + startSecs - 43200) tz
  let journey : JourneyRec := { code := item.trip.trip_id }
  let cached : Option JourneyRec :=
    match vehicle.latest_journey with
    | some lj => if lj.code = journey.code then some lj else none
    | none => none
  match cached with
  | some lj => pure (lj, vehicle)
  | none => do
    let journey := { journey with datetime := some start_date_time }
    let service := resolveService db sourceId item.trip.route_id journey.code
    let trips0 := db.trips.filter (fun t => t.ticket_machine_code == journey.code)
    let trips :=
      match service with
      | some svc => trips0.filter (fun t =>
          db.routes.any (fun r => r.id == t.route && r.service == some svc))
      | none => trips0.filter (fun t =>
          db.routes.any (fun r => r.id == t.route && r.source == sourceId))
    let fb : Option Nat × List TripRec :=
      if trips.isEmpty && service.isNone && hasSub ['_'] journey.code.data then
        let service2 := rescueService db sourceId item.trip.route_id
        let trips2 := db.trips.filter (fun t =>
          db.routes.any (fun r => r.id == t.route && r.source == sourceId)
            && tripStartMatches t startSecs
            && (t.inbound == (item.trip.direction_id == 1)))
        let trips2 :=
          match service2 with
          | some svc => trips2.filter (fun t =>
              db.routes.any (fun r => r.id == t.route && r.service == some svc))
          | none => trips2
        (service2, trips2)
      else (service, trips)
    let service := fb.1
    let trip := pickTrip activeCals days fb.2
    let journey :=
      match service with
      | some svc => { journey with service := some svc }
      | none => journey
    let jv : JourneyRec × VehicleRec :=
      match trip with
      | some t =>
        let journey :=
          if journey.service.isNone then
            { journey with
                service := (db.routes.find? (fun r => r.id == t.route)).bind (·.service) }
          else journey
        let journey := { journey with trip := some t.id, destination := t.headsign }
        let vehicle :=
          if t.operator.isSome && vehicle.operator.isNone then
            { vehicle with operator := t.operator }
          else vehicle
        (journey, vehicle)
      | none => (journey, vehicle)
    let journey :=
      match jv.1.service with
      | some svc =>
        match db.services.find? (fun s => s.id == svc) with
        | some s => { jv.1 with route_name := s.line_name }
        | none => jv.1
      | none => jv.1
    pure (journey, jv.2)

/-- `create_vehicle_location` (lines 192–199): `bearing or None` and
`occupancy_status or None` coerce the falsy `0` to `None` before the
mapping lookup (`self.occupancy_mapping`, by default `occupancies`). -/
def create_vehicle_location (occupancy_mapping : List (Int × String)) (item : RtItem) :
    VehicleLocationRec :=
  { heading := if item.bearing = 0 then none else some item.bearing,
    latlong := (item.longitude, item.latitude),
    occupancy :=
      match (if item.occupancy_status = 0 then none else some item.occupancy_status) with
      | none => none
      | some k => dictGet occupancy_mapping k }

end GtfsrWorldwide

namespace TranslinkQld

/-- Which trip wins in the Translink variant (lines 163–170): the
calendar filter runs only when several candidates remain *and* schedule
fields were present; otherwise `trips[0]`. -/
def qldPickTrip (activeCals : Int → List Nat → List Nat) (hasSched : Bool)
    (days : Option Int) (trips : List TripRec) : Option TripRec :=
  match trips with
  | [] => none
  | [t] => some t
  | ts =>
    if hasSched ∧ days.isSome then
      let calendars := activeCals (days.getD 0) (ts.map (·.calendar))
      (ts.filter (fun t => calendars.contains t.calendar)).head?
    else ts.head?

/-- `get_journey` of import_gtfsr_translink_qld.py (lines 81–190): the
cached-journey short-circuit comes *first*; missing
`start_date`/`start_time` fields fall back to "now" in the feed
timezone instead of raising; the underscore rescue filters by start
time and direction only when schedule fields were present and the start
time is non-zero (a zero timedelta is falsy). -/
def get_journey (db : RtDB) (activeCals : Int → List Nat → List Nat) (sourceId : Nat)
    (tz : String) (item : RtItem) (vehicle : VehicleRec) :
    Except String (JourneyRec × VehicleRec) := do
  let journey : JourneyRec := { code := item.trip.trip_id }
  let cached : Option JourneyRec :=
    match vehicle.latest_journey with
    | some lj => if lj.code = journey.code then some lj else none
    | none => none
  match cached with
  | some lj => pure (lj, vehicle)
  | none => do
    let hasSched := item.trip.start_date ≠ "" ∧ item.trip.start_time ≠ ""
    let sched : Option (Int × Int) ←
      if hasSched then do
        let days ←
          match strptime_noon item.trip.start_date with
          | some d => pure d
          | none => throw "ValueError: strptime"
        let startSecs ←
          match parse_duration item.trip.start_time with
          | some s => pure s
          | none => throw "TypeError: unparseable start_time"
        pure (some (days, startSecs))
      else
        pure none
    let jdt : JDateTime :=
      match sched with
      | some (days, startSecs) =>
        JDateTime.anchored (days * 86400 + 43200 + startSecs - 43200) tz
      | none => JDateTime.nowInTz tz
    let journey := { journey with datetime := some jdt }
    let service := resolveService db sourceId item.trip.route_id journey.code
    let trips0 := db.trips.filter (fun t => t.ticket_machine_code == journey.code)
    let trips :=
      match service with
      | some svc => trips0.filter (fun t =>
          db.routes.any (fun r => r.id == t.route && r.service == some svc))
      | none => trips0.filter (fun t =>
          db.routes.any (fun r => r.id == t.route && r.source == sourceId))
    let fb : Option Nat × List TripRec :=
      if trips.isEmpty && service.isNone && hasSub ['_'] journey.code.data then
        let service2 := rescueService db sourceId item.trip.route_id
        let trips2 := db.trips.filter (fun t =>
          db.routes.any (fun r => r.id == t.route && r.source == sourceId)
            && (match sched with
                | some (_, startSecs) =>
                  if startSecs ≠ 0 then
                    tripStartMatches t startSecs
                      && (t.inbound == (item.trip.direction_id == 1))
                  else true
                | none => true))
        let trips2 :=
          match service2 with
          | some svc => trips2.filter (fun t =>
              db.routes.any (fun r => r.id == t.route && r.service == some svc))
          | none => trips2
        (service2, trips2)
      else (service, trips)
    let service := fb.1
    let trip := qldPickTrip activeCals hasSched ((sched).map (·.1)) fb.2
    let journey :=
      match service with
      | some svc => { journey with service := some svc }
      | none => journey
    let jv : JourneyRec × VehicleRec :=
      match trip with
      | some t =>
        let journey :=
          if journey.service.isNone then
            { journey with
                service := (db.routes.find? (fun r => r.id == t.route)).bind (·.service) }
          else journey
        let journey := { journey with trip := some t.id, destination := t.headsign }
        let vehicle :=
          if t.operator.isSome && vehicle.operator.isNone then
            { vehicle with operator := t.operator }
          else vehicle
        (journey, vehicle)
      | none => (journey, vehicle)
    let journey :=
      match jv.1.service with
      | some svc =>
        match db.services.find? (fun s => s.id == svc) with
        | some s => { jv.1 with route_name := s.line_name }
        | none => jv.1
      | none => jv.1
    pure (journey, jv.2)

/-- `create_vehicle_location` (lines 192–199) with the module-level
`occupancies` table. -/
def create_vehicle_location (item : RtItem) : VehicleLocationRec :=
  { heading := if item.bearing = 0 then none else some item.bearing,
    latlong := (item.longitude, item.latitude),
    occupancy :=
      match (if item.occupancy_status = 0 then none else some item.occupancy_status) with
      | none => none
      | some k => dictGet occupancies k }

end TranslinkQld

/- ### General lemmas about the stable sort -/

theorem insertSorted_perm (key : α → Nat) (x : α) :
    ∀ l : List α, List.Perm (insertSorted key x l) (x :: l) := by
  intro l
  induction l with
  | nil => simp [insertSorted]
  | cons y ys ih =>
    by_cases h : key x ≤ key y
    · simp [insertSorted, h]
    · simp only [insertSorted, if_neg h]
      exact (ih.cons y).trans (List.Perm.swap x y ys)

theorem sortByKey_perm (key : α → Nat) (l : List α) :
    List.Perm (sortByKey key l) l := by
  induction l with
  | nil => simp [sortByKey]
  | cons y ys ih =>
    have h1 : List.Perm (sortByKey key (y :: ys)) (y :: sortByKey key ys) :=
      insertSorted_perm key y _
    exact h1.trans (ih.cons y)

theorem insertSorted_pairwise (key : α → Nat) (x : α) (l : List α)
    (h : l.Pairwise (fun a b => key a ≤ key b)) :
    (insertSorted key x l).Pairwise (fun a b => key a ≤ key b) := by
  induction l with
  | nil => simp [insertSorted]
  | cons y ys ih =>
    rcases List.pairwise_cons.mp h with ⟨hy, hys⟩
    by_cases hxy : key x ≤ key y
    · simp only [insertSorted, if_pos hxy]
      refine List.pairwise_cons.mpr ⟨?_, h⟩
      intro b hb
      rcases List.mem_cons.mp hb with rfl | hb
      · exact hxy
      · exact le_trans hxy (hy b hb)
    · simp only [insertSorted, if_neg hxy]
      refine List.pairwise_cons.mpr ⟨?_, ih hys⟩
      intro b hb
      have hb' : b ∈ x :: ys := (insertSorted_perm key x ys).mem_iff.mp hb
      rcases List.mem_cons.mp hb' with rfl | hb'
      · omega
      · exact hy b hb'

theorem sortByKey_pairwise (key : α → Nat) (l : List α) :
    (sortByKey key l).Pairwise (fun a b => key a ≤ key b) := by
  induction l with
  | nil => simp [sortByKey]
  | cons y ys ih => exact insertSorted_pairwise key y _ ih

theorem pairwise_getLast_max (key : α → Nat) :
    ∀ (l : List α), l.Pairwise (fun a b => key a ≤ key b) →
      ∀ x, l.getLast? = some x → ∀ y ∈ l, key y ≤ key x := by
  intro l
  induction l with
  | nil => simp
  | cons a t ih =>
    intro hp x hlast y hy
    rcases List.pairwise_cons.mp hp with ⟨ha, ht⟩
    cases t with
    | nil =>
      simp at hlast
      rcases List.mem_singleton.mp hy with rfl
      subst hlast
      omega
    | cons b t' =>
      have hlast' : (b :: t').getLast? = some x := by
        simpa [List.getLast?_cons_cons] using hlast
      rcases List.mem_cons.mp hy with rfl | hy'
      · exact ha x (List.mem_of_getLast?_eq_some hlast')
      · exact ih ht x hlast' y hy'

theorem sortByKey_head_min (key : α → Nat) (l : List α) (x : α)
    (h : (sortByKey key l).head? = some x) :
    x ∈ l ∧ ∀ y ∈ l, key x ≤ key y := by
  have hperm := sortByKey_perm key l
  have hsorted := sortByKey_pairwise key l
  cases hms : sortByKey key l with
  | nil => rw [hms] at h; simp at h
  | cons hd tl =>
    rw [hms] at h hperm hsorted
    simp at h
    subst h
    rcases List.pairwise_cons.mp hsorted with ⟨hhd, _⟩
    refine ⟨hperm.mem_iff.mp (List.mem_cons_self _ _), ?_⟩
    intro y hy
    rcases List.mem_cons.mp (hperm.mem_iff.mpr hy) with rfl | hy'
    · omega
    · exact hhd y hy'

theorem sortByKey_getLast_max (key : α → Nat) (l : List α) (x : α)
    (h : (sortByKey key l).getLast? = some x) :
    x ∈ l ∧ ∀ y ∈ l, key y ≤ key x := by
  have hperm := sortByKey_perm key l
  have hsorted := sortByKey_pairwise key l
  refine ⟨hperm.mem_iff.mp (List.mem_of_getLast?_eq_some h), ?_⟩
  intro y hy
  exact pairwise_getLast_max key _ hsorted x h y (hperm.mem_iff.mpr hy)

theorem sortByKey_eq_nil_iff (key : α → Nat) (l : List α) :
    sortByKey key l = [] ↔ l = [] := by
  constructor
  · intro h
    have := (sortByKey_perm key l).length_eq
    rw [h] at this
    exact List.length_eq_zero.mp this.symm
  · intro h
    subst h
    simp [sortByKey]

/- ### Claim theorems -/

/-- The spec's worked example for C2: sequences [1,2,3], departures
[08:00, 08:05, 08:12], arrivals [08:00, 08:05, 08:10]. -/
def c2ExampleRows : List StopTimeRow :=
  [{ trip_id := "t", stop_id := "A", stop_sequence := 1,
     arrival_time := "08:00:00", departure_time := "08:00:00" },
   { trip_id := "t", stop_id := "B", stop_sequence := 2,
     arrival_time := "08:05:00", departure_time := "08:05:00" },
   { trip_id := "t", stop_id := "C", stop_sequence := 3,
     arrival_time := "08:10:00", departure_time := "08:12:00" }]

/-- C2: for every trip with at least one stop-time row, the built
Trip's start is the departure time of a row of minimal sequence and its
end the arrival time of a row of maximal sequence (the first/last rows
after the stable sort by sequence); on the spec's worked example the
result is start 08:00:00, end 08:10:00. -/
theorem c2_trip_start_end :
    (∀ rows : List StopTimeRow, rows ≠ [] →
      ∃ v, tripTimesDest rows = some v ∧
        (∃ rmin, rmin ∈ rows ∧ (∀ r ∈ rows, rmin.stop_sequence ≤ r.stop_sequence) ∧
          v.1 = rmin.departure_time) ∧
        (∃ rmax, rmax ∈ rows ∧ (∀ r ∈ rows, r.stop_sequence ≤ rmax.stop_sequence) ∧
          v.2.1 = rmax.arrival_time))
    ∧ tripTimesDest c2ExampleRows = some ("08:00:00", "08:10:00", "C") := by
  constructor
  · intro rows hne
    have hsne : sortStopTimes rows ≠ [] := by
      intro h
      unfold sortStopTimes at h
      exact hne ((sortByKey_eq_nil_iff _ rows).mp h)
    obtain ⟨f, hf⟩ : ∃ f, (sortStopTimes rows).head? = some f := by
      cases hs : sortStopTimes rows with
      | nil => exact absurd hs hsne
      | cons a t => exact ⟨a, by simp⟩
    obtain ⟨lst, hlst⟩ : ∃ lst, (sortStopTimes rows).getLast? = some lst := by
      cases hs : sortStopTimes rows with
      | nil => exact absurd hs hsne
      | cons a t => exact ⟨(a :: t).getLast (by simp), by simp [List.getLast?_eq_getLast]⟩
    have hf' : (sortByKey (fun r => r.stop_sequence) rows).head? = some f := hf
    have hlst' : (sortByKey (fun r => r.stop_sequence) rows).getLast? = some lst := hlst
    obtain ⟨hfm, hfmin⟩ := sortByKey_head_min (fun r => r.stop_sequence) rows f hf'
    obtain ⟨hlm, hlmax⟩ := sortByKey_getLast_max (fun r => r.stop_sequence) rows lst hlst'
    refine ⟨(f.departure_time, lst.arrival_time, lst.stop_id), ?_, ⟨f, hfm, hfmin, rfl⟩,
      ⟨lst, hlm, hlmax, rfl⟩⟩
    simp only [tripTimesDest]
    rw [hf, hlst]
  · decide

/-- The failing input for C6: a stop-time row whose arrival equals its
departure. -/
def c6Row : StopTimeRow :=
  { trip_id := "t1", stop_id := "s1", stop_sequence := 1,
    arrival_time := "08:00:00", departure_time := "08:00:00" }

/-- C6: the code compares the arrival *string* against the departure
*integer* (`line.arrival_time != departure`), which is always unequal
in Python, so even a row whose arrival equals its departure gets its
arrival stored (28800 seconds) instead of being omitted as the spec
requires. -/
theorem c6_equal_arrival_still_stored :
    stopTimeFields c6Row = some (28800, some 28800) := by decide

/-- C10: `bearing or None` and `occupancy_status or None` coerce the
falsy 0 to None before the mapping lookup in both realtime variants, so
heading is None whenever the bearing is 0 and occupancy is None
whenever the status is 0 — although 0 is a defined code mapped to
"Empty" in the occupancies table. -/
theorem c10_zero_coerced_to_none :
    ∀ (m : List (Int × String)) (item : RtItem),
      (item.bearing = 0 → (GtfsrWorldwide.create_vehicle_location m item).heading = none) ∧
      (item.occupancy_status = 0 →
        (GtfsrWorldwide.create_vehicle_location m item).occupancy = none) ∧
      (item.bearing = 0 → (TranslinkQld.create_vehicle_location item).heading = none) ∧
      (item.occupancy_status = 0 →
        (TranslinkQld.create_vehicle_location item).occupancy = none) ∧
      dictGet occupancies 0 = some "Empty" := by
  intro m item
  refine ⟨?_, ?_, ?_, ?_, by decide⟩ <;> intro h <;>
    simp [GtfsrWorldwide.create_vehicle_location, TranslinkQld.create_vehicle_location, h]

/-- C10 witness: the protobuf-default item (bearing 0, occupancy 0). -/
theorem c10_zero_coerced_to_none_witness :
    (GtfsrWorldwide.create_vehicle_location occupancies {}).heading = none ∧
    (GtfsrWorldwide.create_vehicle_location occupancies {}).occupancy = none ∧
    (TranslinkQld.create_vehicle_location {}).heading = none ∧
    (TranslinkQld.create_vehicle_location {}).occupancy = none := by
  obtain ⟨h1, h2, h3, h4, _⟩ := c10_zero_coerced_to_none occupancies {}
  exact ⟨h1 rfl, h2 rfl, h3 rfl, h4 rfl⟩

/-- C2 witness: the general statement applied to the worked example. -/
theorem c2_trip_start_end_witness :
    ∃ v, tripTimesDest c2ExampleRows = some v ∧
      (∃ rmin, rmin ∈ c2ExampleRows ∧
        (∀ r ∈ c2ExampleRows, rmin.stop_sequence ≤ r.stop_sequence) ∧
        v.1 = rmin.departure_time) ∧
      (∃ rmax, rmax ∈ c2ExampleRows ∧
        (∀ r ∈ c2ExampleRows, r.stop_sequence ≤ rmax.stop_sequence) ∧
        v.2.1 = rmax.arrival_time) :=
  c2_trip_start_end.1 c2ExampleRows (by decide)

/-- C9: when the shape substring between the two projected distances of
a consecutive stop pair is not a single LineString, the pair produces
no RouteLink (the link map is unchanged), no error is raised, and the
cursor still advances to the second stop's projected distance, from
which the remaining pairs are processed. -/
theorem c9_degenerate_segment_skipped :
    ∀ (g : ShapeGeom) (pfx : String) (service : Option Nat)
      (existing : List (RLKey × Nat)) (stops : List (String × StopPointRec))
      (links : List (RLKey × RouteLinkRec)) (cursor : Option Int)
      (a b : StopTimeRow) (ps : List (StopTimeRow × StopTimeRow))
      (sa sb : StopPointRec),
      dictGet links (service, (if pfx ≠ "" then pfx ++ a.stop_id else a.stop_id),
        (if pfx ≠ "" then pfx ++ b.stop_id else b.stop_id)) = none →
      dictGet stops (if pfx ≠ "" then pfx ++ a.stop_id else a.stop_id) = some sa →
      dictGet stops (if pfx ≠ "" then pfx ++ b.stop_id else b.stop_id) = some sb →
      (∀ w, g.sub
          (match cursor with
           | none => g.proj sa.latlong
           | some d => if d = 0 then g.proj sa.latlong else d)
          (g.proj sb.latlong) ≠ SubGeom.lineString w) →
      routeLinkStep g pfx service existing stops (cursor, links) (a, b)
          = Except.ok (some (g.proj sb.latlong), links) ∧
        routeLinkPairs g pfx service existing stops (cursor, links) ((a, b) :: ps)
          = routeLinkPairs g pfx service existing stops (some (g.proj sb.latlong), links) ps := by
  intro g pfx service existing stops links cursor a b ps sa sb hkey hsa hsb hdeg
  simp only [ne_eq, ite_not] at hkey hsa hsb
  have hstep : routeLinkStep g pfx service existing stops (cursor, links) (a, b)
      = Except.ok (some (g.proj sb.latlong), links) := by
    unfold routeLinkStep
    cases cursor with
    | none =>
      cases hsub : g.sub (g.proj sa.latlong) (g.proj sb.latlong) with
      | lineString w => exact absurd hsub (by simpa using hdeg w)
      | other => simp [hkey, hsa, hsb, hsub, pure, Except.pure, bind, Except.bind]
    | some d =>
      by_cases hd : d = 0
      · subst hd
        cases hsub : g.sub (g.proj sa.latlong) (g.proj sb.latlong) with
        | lineString w => exact absurd hsub (by simpa using hdeg w)
        | other => simp [hkey, hsa, hsb, hsub, pure, Except.pure, bind, Except.bind]
      · cases hsub : g.sub d (g.proj sb.latlong) with
        | lineString w => exact absurd hsub (by simpa [hd] using hdeg w)
        | other => simp [hkey, hsa, hsb, hsub, hd, pure, Except.pure, bind, Except.bind]
  refine ⟨hstep, ?_⟩
  simp only [routeLinkPairs, hstep]
  rfl

/-- A shape on which every substring is degenerate (e.g. two stops at
identical coordinates projecting to the same distance). -/
def c9Geom : ShapeGeom := { proj := fun _ => 7, sub := fun _ _ => SubGeom.other }

/-- Two stops at the same coordinates for the C9 witness. -/
def c9StopA : StopPointRec :=
  { atco_code := "src-A", common_name := "A", latlong := (1, 2), source := some 1 }

/-- Second stop of the degenerate pair. -/
def c9StopB : StopPointRec :=
  { atco_code := "src-B", common_name := "B", latlong := (1, 2), source := some 1 }

/-- Stop lookup for the C9 witness. -/
def c9Stops : List (String × StopPointRec) := [("src-A", c9StopA), ("src-B", c9StopB)]

/-- First stop-time row of the degenerate pair. -/
def c9RowA : StopTimeRow :=
  { trip_id := "t", stop_id := "A", stop_sequence := 1,
    arrival_time := "08:00:00", departure_time := "08:00:00" }

/-- Second stop-time row of the degenerate pair. -/
def c9RowB : StopTimeRow :=
  { trip_id := "t", stop_id := "B", stop_sequence := 2,
    arrival_time := "08:05:00", departure_time := "08:05:00" }

/-- C9 witness: a concrete degenerate pair is skipped without error and
the cursor advances. -/
theorem c9_degenerate_segment_skipped_witness :
    routeLinkStep c9Geom "src-" (some 5) [] c9Stops (none, []) (c9RowA, c9RowB)
        = Except.ok (some (c9Geom.proj c9StopB.latlong), []) ∧
      routeLinkPairs c9Geom "src-" (some 5) [] c9Stops (none, []) [(c9RowA, c9RowB)]
        = routeLinkPairs c9Geom "src-" (some 5) [] c9Stops
            (some (c9Geom.proj c9StopB.latlong), []) [] :=
  c9_degenerate_segment_skipped c9Geom "src-" (some 5) [] c9Stops [] none c9RowA c9RowB []
    c9StopA c9StopB rfl (by decide) (by decide) (by intro w h; simp [c9Geom] at h)

/-- Members of an association list built by repeated `dictSet` come
from the initial list or are exactly an inserted pair. -/
theorem dictSet_mem [DecidableEq α] (k : α) (v : β) (m : List (α × β)) :
    ∀ kv ∈ dictSet k v m, kv = (k, v) ∨ kv ∈ m := by
  induction m with
  | nil => simp [dictSet]
  | cons hd tl ih =>
    intro kv h
    simp only [dictSet] at h
    by_cases hk : hd.1 = k
    · rw [if_pos hk] at h
      rcases List.mem_cons.mp h with rfl | h'
      · exact Or.inl rfl
      · exact Or.inr (List.mem_cons_of_mem _ h')
    · rw [if_neg hk] at h
      rcases List.mem_cons.mp h with rfl | h'
      · exact Or.inr (List.mem_cons_self _ _)
      · rcases ih kv h' with h'' | h''
        · exact Or.inl h''
        · exact Or.inr (List.mem_cons_of_mem _ h'')

/-- Members of the candidate map built by a `dictSet` fold are images
of input rows. -/
theorem foldl_dictSet_mem {γ} (g : γ → α × β) [DecidableEq α] (rows : List γ) :
    ∀ (m : List (α × β)) (kv : α × β),
      kv ∈ rows.foldl (fun acc line => dictSet (g line).1 (g line).2 acc) m →
      kv ∈ m ∨ ∃ line ∈ rows, kv = g line := by
  induction rows with
  | nil => simp
  | cons r rs ih =>
    intro m kv h
    rcases ih _ kv h with hm | ⟨line, hl, rfl⟩
    · rcases dictSet_mem _ _ _ kv hm with rfl | hm'
      · exact Or.inr ⟨r, List.mem_cons_self _ _, rfl⟩
      · exact Or.inl hm'
    · exact Or.inr ⟨line, List.mem_cons_of_mem _ hl, rfl⟩

/-- In a list with pairwise-distinct keys, two members with the same
key coincide. -/
theorem pairwise_key_inj {α} {κ : Type} (key : α → κ) {l : List α}
    (h : l.Pairwise (fun a b => key a ≠ key b)) :
    ∀ a ∈ l, ∀ b ∈ l, key a = key b → a = b := by
  induction l with
  | nil => simp
  | cons x xs ih =>
    rcases List.pairwise_cons.mp h with ⟨hx, hxs⟩
    intro a ha b hb hk
    rcases List.mem_cons.mp ha with rfl | ha' <;> rcases List.mem_cons.mp hb with rfl | hb'
    · rfl
    · exact absurd hk (hx b hb')
    · exact absurd hk.symm (hx a ha')
    · exact ih hxs a ha' b hb' hk

/-- C4: an existing StopPoint is written by a run of source S only if
its owning source is S or it has none, and only if its coordinates or
display name actually changed; a StopPoint owned by a different source
is never mutated.  The final stop table is the element-wise image of
the old one (followed by the created stops), and on every existing stop
the update function obeys both conditions.  Primary keys (`atco_code`)
are unique in the store. -/
theorem c4_stop_ownership (cfg : GtfsConfig) (st : IState) (rows : List StopRow)
    (huniq : st.stops.Pairwise (fun a b => a.atco_code ≠ b.atco_code)) :
    ∃ f creates, (do_stops cfg st rows).1.stops = st.stops.map f ++ creates ∧
      ∀ e ∈ st.stops,
        (∀ T, e.source = some T → T ≠ cfg.sourceId → f e = e) ∧
        (f e ≠ e →
          (e.source = some cfg.sourceId ∨ e.source = none) ∧
          ∃ p, p ∈ rows.map (build_stop cfg) ∧ p.atco_code = e.atco_code ∧
            (p.latlong ≠ e.latlong ∨ p.common_name ≠ e.common_name) ∧
            f e = { e with common_name := p.common_name, latlong := p.latlong,
                           indicator := p.indicator, source := p.source }) := by
  refine ⟨stopUpdateFn cfg st rows, stopCreates cfg st rows, rfl, ?_⟩
  intro e he
  have hcands_img : ∀ kv ∈ stopCands cfg rows,
      kv.2 ∈ rows.map (build_stop cfg) ∧ kv.1 = kv.2.atco_code := by
    intro kv hkv
    rcases foldl_dictSet_mem
        (fun line => ((build_stop cfg line).atco_code, build_stop cfg line)) rows [] kv hkv with
      h0 | ⟨line, hl, rfl⟩
    · simp at h0
    · exact ⟨List.mem_map_of_mem _ hl, rfl⟩
  constructor
  · intro T hT hTS
    unfold stopUpdateFn
    cases hfind : ((stopCands cfg rows).filter (stopUpdateCond cfg st)).find?
        (fun p => p.1 == e.atco_code) with
    | none => rfl
    | some p =>
      exfalso
      have hp_mem := List.mem_of_find?_eq_some hfind
      have hp_key : p.1 = e.atco_code := by
        have h := List.find?_some hfind
        simpa using h
      have hcond : stopUpdateCond cfg st p = true := List.of_mem_filter hp_mem
      unfold stopUpdateCond at hcond
      cases hex : st.stops.find? (fun q => q.atco_code == p.1) with
      | none => rw [hex] at hcond; simp at hcond
      | some ex =>
        rw [hex] at hcond
        simp only [Bool.and_eq_true, Bool.or_eq_true, beq_iff_eq, decide_eq_true_eq] at hcond
        have hex_mem := List.mem_of_find?_eq_some hex
        have hexe : ex = e := by
          apply pairwise_key_inj (fun s => s.atco_code) huniq ex hex_mem e he
          have h := List.find?_some hex
          have h1 : ex.atco_code = p.1 := by simpa using h
          rw [h1, hp_key]
        subst hexe
        rcases hcond with ⟨hsrc, _⟩
        rcases hsrc with h | h
        · rw [hT] at h; exact hTS (Option.some.inj h)
        · rw [hT] at h; exact Option.noConfusion h
  · intro hne
    unfold stopUpdateFn at hne ⊢
    cases hfind : ((stopCands cfg rows).filter (stopUpdateCond cfg st)).find?
        (fun p => p.1 == e.atco_code) with
    | none => rw [hfind] at hne; simp at hne
    | some p =>
      have hp_mem := List.mem_of_find?_eq_some hfind
      have hp_key : p.1 = e.atco_code := by
        have h := List.find?_some hfind
        simpa using h
      have hcond : stopUpdateCond cfg st p = true := List.of_mem_filter hp_mem
      unfold stopUpdateCond at hcond
      cases hex : st.stops.find? (fun q => q.atco_code == p.1) with
      | none => rw [hex] at hcond; simp at hcond
      | some ex =>
        rw [hex] at hcond
        simp only [Bool.and_eq_true, Bool.or_eq_true, beq_iff_eq, decide_eq_true_eq] at hcond
        have hex_mem := List.mem_of_find?_eq_some hex
        have hexe : ex = e := by
          apply pairwise_key_inj (fun s => s.atco_code) huniq ex hex_mem e he
          have h := List.find?_some hex
          have h1 : ex.atco_code = p.1 := by simpa using h
          rw [h1, hp_key]
        subst hexe
        rcases hcond with ⟨hsrc, hchanged⟩
        rcases hcands_img p (List.mem_of_mem_filter hp_mem) with ⟨himg, hkey⟩
        refine ⟨?_, p.2, himg, ?_, ?_, ?_⟩
        · exact hsrc
        · rw [← hkey, hp_key]
        · rcases hchanged with h | h
          · exact Or.inl (Ne.symm h)
          · exact Or.inr (Ne.symm h)
        · rfl

/-- Configuration for the C4 witness. -/
def c4Cfg : GtfsConfig := { sourceId := 1, sourceName := "Src", stopPfx := "src-" }

/-- A stop owned by a different source (2) for the C4 witness. -/
def c4Stop : StopPointRec :=
  { atco_code := "src-X", common_name := "Old", latlong := (0, 0), source := some 2 }

/-- Store for the C4 witness. -/
def c4State : IState := { stops := [c4Stop] }

/-- Feed rows for the C4 witness: same stop code, different coordinates. -/
def c4Rows : List StopRow :=
  [{ stop_id := "X", stop_name := "New", stop_lat := 5, stop_lon := 6 }]

/-- C4 witness: the ownership theorem applied to a store holding one
stop owned by another source. -/
theorem c4_stop_ownership_witness :
    ∃ f creates, (do_stops c4Cfg c4State c4Rows).1.stops = c4State.stops.map f ++ creates ∧
      ∀ e ∈ c4State.stops,
        (∀ T, e.source = some T → T ≠ c4Cfg.sourceId → f e = e) ∧
        (f e ≠ e →
          (e.source = some c4Cfg.sourceId ∨ e.source = none) ∧
          ∃ p, p ∈ c4Rows.map (build_stop c4Cfg) ∧ p.atco_code = e.atco_code ∧
            (p.latlong ≠ e.latlong ∨ p.common_name ≠ e.common_name) ∧
            f e = { e with common_name := p.common_name, latlong := p.latlong,
                           indicator := p.indicator, source := p.source }) :=
  c4_stop_ownership c4Cfg c4State c4Rows (by simp [c4State])

/-- Existing Route rows for the C5 counterexample: route code "R1"
points at the Service with id 2. -/
def c5Routes : List RouteRec :=
  [{ id := 10, source := 1, code := "R1", line_name := "", description := "",
     service := some 2 }]

/-- Service matching only by line name (lowest id). -/
def c5SvcA : ServiceRec := { id := 1, service_code := "", line_name := "x", description := "" }

/-- Service matching by the highest-priority route-code criterion. -/
def c5SvcB : ServiceRec := { id := 2, service_code := "", line_name := "Y", description := "" }

/-- C5 counterexample: the Service satisfying only the line-name
criterion (id 1) is chosen over the Service satisfying the
highest-priority existing-route criterion (id 2): the criteria are a
single disjunction ordered by id, not a priority cascade. -/
theorem c5_counterexample :
    choose_service [c5SvcA, c5SvcB] (service_match_q c5Routes "R1" "X" "") = some c5SvcA ∧
    (c5Routes.any fun r => r.code == "R1" && r.service == some c5SvcB.id) = true ∧
    (c5Routes.any fun r => r.code == "R1" && r.service == some c5SvcA.id) = false := by
  decide

/-- C5 (amended): the Service chosen by `handle_route` is the one with
the smallest internal id among those satisfying the single disjunction
`service_match_q` (existing route code, stored external code,
line-name match when the line name is non-empty and not denylisted,
otherwise description match); when none satisfies it, no Service is
chosen. -/
theorem c5_amended :
    ∀ (svcs : List ServiceRec) (routes : List RouteRec) (route_id line_name description : String),
      (∀ s, choose_service svcs (service_match_q routes route_id line_name description) = some s →
        s ∈ svcs ∧ service_match_q routes route_id line_name description s = true ∧
        ∀ s' ∈ svcs, service_match_q routes route_id line_name description s' = true →
          s.id ≤ s'.id)
      ∧ (choose_service svcs (service_match_q routes route_id line_name description) = none →
          ∀ s ∈ svcs, service_match_q routes route_id line_name description s = false) := by
  intro svcs routes route_id line_name description
  constructor
  · intro s hs
    unfold choose_service at hs
    obtain ⟨hmem, hmin⟩ := sortByKey_head_min (fun s => s.id) _ s hs
    rcases List.mem_filter.mp hmem with ⟨hmem', hq⟩
    refine ⟨hmem', hq, ?_⟩
    intro s' hs' hq'
    exact hmin s' (List.mem_filter.mpr ⟨hs', hq'⟩)
  · intro hnone s hs
    unfold choose_service at hnone
    by_contra hq
    have hq' : service_match_q routes route_id line_name description s = true := by
      cases h : service_match_q routes route_id line_name description s
      · exact absurd h hq
      · rfl
    have hmem : s ∈ (svcs.filter (service_match_q routes route_id line_name description)) :=
      List.mem_filter.mpr ⟨hs, hq'⟩
    have hne : (svcs.filter (service_match_q routes route_id line_name description)) ≠ [] :=
      List.ne_nil_of_mem hmem
    rw [List.head?_eq_none_iff] at hnone
    exact hne ((sortByKey_eq_nil_iff _ _).mp hnone)

/-- C5 witness: the amended statement applied to the counterexample
configuration. -/
theorem c5_amended_witness :
    c5SvcA ∈ [c5SvcA, c5SvcB] ∧ service_match_q c5Routes "R1" "X" "" c5SvcA = true ∧
      ∀ s' ∈ [c5SvcA, c5SvcB], service_match_q c5Routes "R1" "X" "" s' = true →
        c5SvcA.id ≤ s'.id :=
  (c5_amended [c5SvcA, c5SvcB] c5Routes "R1" "X" "").1 c5SvcA (by decide)

/-- C3: re-importing a route row whose `(source, code)` key already
exists never creates a second Route with that key (the table length and
the number of key matches are unchanged) and deletes every Trip
previously attached to the existing Route, so after attaching any new
generation of Trips the Route holds exactly those, and no StopTime of
the prior generation remains reachable from the Route through a
surviving Trip.  Primary keys (`id`) are unique in the store. -/
theorem c3_route_reimport (cfg : GtfsConfig) (st : IState) (run : RunState) (line : RouteRow)
    (r : RouteRec)
    (huniq : st.routes.Pairwise (fun a b => a.id ≠ b.id))
    (hfind : st.routes.find? (fun x => x.source == cfg.sourceId && x.code == line.route_id)
      = some r) :
    ((handle_route cfg st run line).1.routes.length = st.routes.length) ∧
    ((handle_route cfg st run line).1.routes.countP
        (fun x => x.source == cfg.sourceId && x.code == line.route_id)
      = st.routes.countP (fun x => x.source == cfg.sourceId && x.code == line.route_id)) ∧
    (∀ t ∈ (handle_route cfg st run line).1.trips, t.route ≠ r.id) ∧
    (∀ newTrips : List TripRec,
      ((handle_route cfg st run line).1.trips ++ newTrips).filter (fun t => t.route == r.id)
        = newTrips.filter (fun t => t.route == r.id)) ∧
    (∀ sRec ∈ (handle_route cfg st run line).1.stop_times,
      ∀ t ∈ (handle_route cfg st run line).1.trips, t.id = sRec.trip → t.route ≠ r.id) := by
  obtain ⟨hr, ht, hsx⟩ := handle_route_service_frame cfg st run line
  have hrmem : r ∈ st.routes := List.mem_of_find?_eq_some hfind
  have hmain : (handle_route cfg st run line).1
      = (route_upsert cfg (handle_route_service cfg st run line).1
          (handle_route_service cfg st run line).2.2.1 line.route_id).1 := rfl
  have hfind' : (handle_route_service cfg st run line).1.routes.find?
      (fun x => x.source == cfg.sourceId && x.code == line.route_id) = some r := by
    rw [hr]; exact hfind
  have hup : (route_upsert cfg (handle_route_service cfg st run line).1
      (handle_route_service cfg st run line).2.2.1 line.route_id).1
      = deleteTripsOfRoute
          { (handle_route_service cfg st run line).1 with
              routes := (handle_route_service cfg st run line).1.routes.map
                (fun x => if x.id = r.id then
                  { r with line_name := (handle_route_service cfg st run line).2.2.1.line_name,
                           description := (handle_route_service cfg st run line).2.2.1.description,
                           service := some (handle_route_service cfg st run line).2.2.1.id }
                  else x) } r.id := by
    unfold route_upsert
    rw [hfind']
  have htrips : (handle_route cfg st run line).1.trips
      = st.trips.filter (fun t => ¬ t.route = r.id) := by
    rw [hmain, hup]
    unfold deleteTripsOfRoute
    simp [ht]
  have hnotr : ∀ t ∈ (handle_route cfg st run line).1.trips, t.route ≠ r.id := by
    intro t hmem
    rw [htrips] at hmem
    have := List.of_mem_filter hmem
    simpa using this
  refine ⟨?_, ?_, hnotr, ?_, ?_⟩
  · rw [hmain, hup]
    unfold deleteTripsOfRoute
    simp [hr]
  · rw [hmain, hup]
    unfold deleteTripsOfRoute
    simp only []
    rw [List.countP_map]
    · rw [hr]
      apply List.countP_congr
      intro x hx
      by_cases hid : x.id = r.id
      · have hxr : x = r := pairwise_key_inj (fun z => z.id) huniq x hx r hrmem hid
        subst hxr
        simp
      · simp [hid]
  · intro newTrips
    rw [List.filter_append]
    have hnil : ((handle_route cfg st run line).1.trips).filter
        (fun t => t.route == r.id) = [] := by
      rw [List.filter_eq_nil_iff]
      intro t hmem
      have := hnotr t hmem
      simpa using this
    rw [hnil]
    rfl
  · intro sRec _ t hmem hid
    exact hnotr t hmem

/-- Configuration for the C3 witness. -/
def c3Cfg : GtfsConfig := { sourceId := 1, sourceName := "Src" }

/-- The pre-existing Route for the C3 witness. -/
def c3Route : RouteRec :=
  { id := 10, source := 1, code := "R1", line_name := "1", description := "",
    service := some 5 }

/-- A prior-generation Trip attached to that Route. -/
def c3Trip : TripRec :=
  { id := 100, route := 10, calendar := 1, inbound := false, headsign := "",
    ticket_machine_code := "t1" }

/-- A prior-generation StopTime of that Trip. -/
def c3StopTime : StopTimeRec :=
  { stop_id := "s", arrival := none, departure := 0, sequence := 1, trip := 100,
    timing_status := "PTP", pick_up := true, set_down := true }

/-- Store for the C3 witness. -/
def c3State : IState :=
  { routes := [c3Route], trips := [c3Trip], stop_times := [c3StopTime] }

/-- The re-imported feed route row for the C3 witness. -/
def c3Line : RouteRow :=
  { route_id := "R1", route_short_name := some "1", route_long_name := some "One",
    route_type := 3 }

/-- C3 witness: the re-import theorem applied to a store with one Route,
one prior Trip and one prior StopTime. -/
theorem c3_route_reimport_witness :
    ((handle_route c3Cfg c3State {} c3Line).1.routes.length = c3State.routes.length) ∧
    ((handle_route c3Cfg c3State {} c3Line).1.routes.countP
        (fun x => x.source == c3Cfg.sourceId && x.code == c3Line.route_id)
      = c3State.routes.countP (fun x => x.source == c3Cfg.sourceId && x.code == c3Line.route_id)) ∧
    (∀ t ∈ (handle_route c3Cfg c3State {} c3Line).1.trips, t.route ≠ c3Route.id) ∧
    (∀ newTrips : List TripRec,
      ((handle_route c3Cfg c3State {} c3Line).1.trips ++ newTrips).filter
          (fun t => t.route == c3Route.id)
        = newTrips.filter (fun t => t.route == c3Route.id)) ∧
    (∀ sRec ∈ (handle_route c3Cfg c3State {} c3Line).1.stop_times,
      ∀ t ∈ (handle_route c3Cfg c3State {} c3Line).1.trips,
        t.id = sRec.trip → t.route ≠ c3Route.id) :=
  c3_route_reimport c3Cfg c3State {} c3Line c3Route (by simp [c3State]) (by decide)

/-- C7: when a vehicle's cached latest journey carries the same code as
the incoming report's trip id, `get_journey` returns the cached journey
unchanged (and leaves the vehicle untouched), so the second of two
consecutive reports with one journey code yields the same
VehicleJourney rather than a new one.  The Translink variant
short-circuits before any parsing; the worldwide variant parses the
start date/time first, so its short-circuit fires whenever those
parse. -/
theorem c7_cached_journey_reused :
    ∀ (db : RtDB) (activeCals : Int → List Nat → List Nat) (sourceId : Nat) (tz : String)
      (item : RtItem) (vehicle : VehicleRec) (lj : JourneyRec),
      vehicle.latest_journey = some lj → lj.code = item.trip.trip_id →
      (TranslinkQld.get_journey db activeCals sourceId tz item vehicle
        = Except.ok (lj, vehicle)) ∧
      (∀ days startSecs, strptime_noon item.trip.start_date = some days →
        parse_duration item.trip.start_time = some startSecs →
        GtfsrWorldwide.get_journey db activeCals sourceId tz item vehicle
          = Except.ok (lj, vehicle)) := by
  intro db activeCals sourceId tz item vehicle lj hveh hcode
  constructor
  · unfold TranslinkQld.get_journey
    simp [hveh, hcode, pure, Except.pure]
  · intro days startSecs hdays hsecs
    unfold GtfsrWorldwide.get_journey
    simp [hveh, hcode, hdays, hsecs, pure, Except.pure, bind, Except.bind]

/-- The cached journey for the C7 witness. -/
def c7Journey : JourneyRec := { code := "T1" }

/-- The vehicle carrying that cached journey. -/
def c7Vehicle : VehicleRec := { id := 1, latest_journey := some c7Journey }

/-- A report with the same journey code. -/
def c7Item : RtItem :=
  { trip := { trip_id := "T1", route_id := "R", start_date := "20240101",
              start_time := "08:00:00" } }

/-- C7 witness: both variants reuse the cached journey on a concrete
matching report. -/
theorem c7_cached_journey_reused_witness :
    TranslinkQld.get_journey {} (fun _ c => c) 1 "UTC" c7Item c7Vehicle
        = Except.ok (c7Journey, c7Vehicle) ∧
      GtfsrWorldwide.get_journey {} (fun _ c => c) 1 "UTC" c7Item c7Vehicle
        = Except.ok (c7Journey, c7Vehicle) := by
  have h := c7_cached_journey_reused {} (fun _ c => c) 1 "UTC" c7Item c7Vehicle c7Journey
    rfl rfl
  exact ⟨h.1, h.2 (daysFromCivil 2024 1 1) 28800 (by decide) (by decide)⟩

/-- A report with absent schedule fields (protobuf defaults). -/
def c8Item : RtItem := {}

/-- A vehicle with no cached journey. -/
def c8Vehicle : VehicleRec := { id := 1 }

/-- C8 counterexample: on a report whose service-date/start-time fields
are absent, the worldwide `get_journey` raises (strptime fails on the
empty string) instead of falling back to the current time in the feed
timezone. -/
theorem c8_counterexample :
    GtfsrWorldwide.get_journey {} (fun _ c => c) 1 "UTC" c8Item c8Vehicle
      = Except.error "ValueError: strptime" := by
  rfl

/-- C8 (amended): when the schedule fields are present and parse, both
variants give the journey a nominal start datetime equal to the service
date anchored at noon plus the start time minus 12 hours with the feed
timezone attached — which equals the date's midnight plus the start
time-of-day; when the fields are absent, the Translink Queensland
variant falls back to the current time in that timezone, while the
worldwide variant raises a parse error instead of falling back. -/
theorem c8_amended :
    ∀ (db : RtDB) (activeCals : Int → List Nat → List Nat) (sourceId : Nat) (tz : String)
      (item : RtItem) (vehicle : VehicleRec),
      (∀ lj, vehicle.latest_journey = some lj → lj.code ≠ item.trip.trip_id) →
      (∀ days startSecs,
        strptime_noon item.trip.start_date = some days →
        parse_duration item.trip.start_time = some startSecs →
        (∃ j v, GtfsrWorldwide.get_journey db activeCals sourceId tz item vehicle
            = Except.ok (j, v)
          ∧ j.datetime = some (JDateTime.anchored (days * 86400 + startSecs) tz)) ∧
        (item.trip.start_date ≠ "" → item.trip.start_time ≠ "" →
          ∃ j v, TranslinkQld.get_journey db activeCals sourceId tz item vehicle
              = Except.ok (j, v)
            ∧ j.datetime = some (JDateTime.anchored (days * 86400 + startSecs) tz))) ∧
      ((item.trip.start_date = "" ∨ item.trip.start_time = "") →
        ∃ j v, TranslinkQld.get_journey db activeCals sourceId tz item vehicle
            = Except.ok (j, v)
          ∧ j.datetime = some (JDateTime.nowInTz tz)) ∧
      (item.trip.start_date = "" →
        GtfsrWorldwide.get_journey db activeCals sourceId tz item vehicle
          = Except.error "ValueError: strptime") := by
  intro db activeCals sourceId tz item vehicle hnc
  have hanchor : ∀ days startSecs : Int,
      days * 86400 + 43200 + startSecs - 43200 = days * 86400 + startSecs := by
    intro days startSecs; omega
  have hcached : (match vehicle.latest_journey with
      | some lj => if lj.code = item.trip.trip_id then some lj else none
      | none => none) = (none : Option JourneyRec) := by
    cases hl : vehicle.latest_journey with
    | none => rfl
    | some lj => simp [hnc lj hl]
  refine ⟨?_, ?_, ?_⟩
  · intro days startSecs hdays hsecs
    constructor
    · unfold GtfsrWorldwide.get_journey
      simp only [hdays, hsecs, bind, Except.bind]
      try dsimp only
      rw [hcached]
      refine ⟨_, _, rfl, ?_⟩
      try dsimp only
      repeat' split
      all_goals simp [hanchor]
    · intro hsd hst
      unfold TranslinkQld.get_journey
      try dsimp only
      rw [hcached]
      have hcond : item.trip.start_date ≠ "" ∧ item.trip.start_time ≠ "" := ⟨hsd, hst⟩
      rw [if_pos hcond]
      simp only [hdays, hsecs, bind, Except.bind]
      try dsimp only
      refine ⟨_, _, rfl, ?_⟩
      try dsimp only
      repeat' split
      all_goals simp [hanchor]
  · intro habsent
    unfold TranslinkQld.get_journey
    try dsimp only
    rw [hcached]
    have hcond : ¬ (item.trip.start_date ≠ "" ∧ item.trip.start_time ≠ "") := by
      rcases habsent with h | h <;> simp [h]
    rw [if_neg hcond]
    simp only [bind, Except.bind]
    try dsimp only
    refine ⟨_, _, rfl, ?_⟩
    try dsimp only
    repeat' split
    all_goals simp
  · intro hsd
    unfold GtfsrWorldwide.get_journey
    simp [hsd, strptime_noon, bind, Except.bind]

/-- A report with schedule fields present for the C8 witness. -/
def c8ItemSched : RtItem :=
  { trip := { trip_id := "T2", route_id := "R", start_date := "20240101",
              start_time := "08:00:00" } }

/-- A vehicle with no cached journey for the C8 witness. -/
def c8VehicleNone : VehicleRec := { id := 2 }

/-- C8 witness: concrete reports exercising the anchored datetime, the
Translink fallback and the worldwide failure. -/
theorem c8_amended_witness :
    (∃ j v, GtfsrWorldwide.get_journey {} (fun _ c => c) 1 "UTC" c8ItemSched c8VehicleNone
        = Except.ok (j, v)
      ∧ j.datetime = some (JDateTime.anchored (daysFromCivil 2024 1 1 * 86400 + 28800) "UTC")) ∧
    (∃ j v, TranslinkQld.get_journey {} (fun _ c => c) 1 "UTC" c8Item c8Vehicle
        = Except.ok (j, v) ∧ j.datetime = some (JDateTime.nowInTz "UTC")) ∧
    (GtfsrWorldwide.get_journey {} (fun _ c => c) 1 "UTC" c8Item c8Vehicle
      = Except.error "ValueError: strptime") := by
  have h1 := c8_amended {} (fun _ c => c) 1 "UTC" c8ItemSched c8VehicleNone
    (by intro lj h; simp [c8VehicleNone] at h)
  have h2 := c8_amended {} (fun _ c => c) 1 "UTC" c8Item c8Vehicle
    (by intro lj h; simp [c8Vehicle] at h)
  exact ⟨(h1.1 (daysFromCivil 2024 1 1) 28800 (by decide) (by decide)).1,
    h2.2.1 (Or.inl rfl), h2.2.2 rfl⟩

/-- The four tables written by the phases before trip materialization. -/
def tablesIntact (a b : IState) : Prop :=
  a.operators = b.operators ∧ a.services = b.services ∧ a.routes = b.routes ∧ a.stops = b.stops

theorem tablesIntact_refl (a : IState) : tablesIntact a a := ⟨rfl, rfl, rfl, rfl⟩

theorem tablesIntact_trans {a b c : IState} (h1 : tablesIntact a b) (h2 : tablesIntact b c) :
    tablesIntact a c :=
  ⟨h1.1.trans h2.1, h1.2.1.trans h2.2.1, h1.2.2.1.trans h2.2.2.1, h1.2.2.2.trans h2.2.2.2⟩

/-- One trip-loop step only writes trips (and their id counter); an
error carries the store exactly as it stood. -/
theorem tripsStep_frame (cfg : GtfsConfig) (run : RunState) (calendars : List (String × Nat))
    (grouped : List (String × List StopTimeRow)) (stops : List (String × StopPointRec))
    (acc : TripsAcc) (line : TripRow) :
    match tripsStep cfg run calendars grouped stops acc line with
    | .ok acc' => tablesIntact acc'.st acc.st
    | .error es => es.2 = acc.st := by
  unfold tripsStep
  cases h1 : dictGet run.routes line.route_id with
  | none => simp [bind, Except.bind, h1, tablesIntact, pure, Except.pure]
  | some routeId =>
    cases h2 : dictGet calendars line.service_id with
    | none => simp [bind, Except.bind, h1, h2, tablesIntact, pure, Except.pure]
    | some cal =>
      cases h3 : dictGet run.route_operators line.route_id with
      | none => simp [bind, Except.bind, h1, h2, h3, tablesIntact, pure, Except.pure]
      | some op =>
        simp only [bind, Except.bind, h1, h2, h3, pure, Except.pure]
        split_ifs <;> simp [tablesIntact, flushTrips, pure, Except.pure]

/-- The whole trip loop only writes trips; an error carries a store
whose other tables are exactly the input's. -/
theorem tripsPhase_frame (cfg : GtfsConfig) (run : RunState) (calendars : List (String × Nat))
    (grouped : List (String × List StopTimeRow)) (stops : List (String × StopPointRec)) :
    ∀ (rows : List TripRow) (acc : TripsAcc),
      match tripsPhase cfg run calendars grouped stops acc rows with
      | .ok acc' => tablesIntact acc'.st acc.st
      | .error es => tablesIntact es.2 acc.st := by
  intro rows
  induction rows with
  | nil =>
    intro acc
    simp [tripsPhase, tablesIntact, flushTrips, pure, Except.pure]
  | cons l ls ih =>
    intro acc
    have hstep := tripsStep_frame cfg run calendars grouped stops acc l
    unfold tripsPhase
    simp only [bind, Except.bind]
    cases hs : tripsStep cfg run calendars grouped stops acc l with
    | error es =>
      rw [hs] at hstep
      simp only at hstep
      simpa [hstep] using tablesIntact_refl acc.st
    | ok acc1 =>
      rw [hs] at hstep
      simp only at hstep
      have hrest := ih acc1
      cases hp : tripsPhase cfg run calendars grouped stops acc1 ls with
      | error es2 =>
        rw [hp] at hrest
        simp only at hrest
        simpa [hp] using tablesIntact_trans hrest hstep
      | ok acc2 =>
        rw [hp] at hrest
        simp only at hrest
        simpa [hp] using tablesIntact_trans hrest hstep

/-- One stop-time step only appends stop-time rows; an error carries
the store exactly as it stood. -/
theorem stopTimesStep_frame (cfg : GtfsConfig) (created : List String)
    (pkmap : List (String × Nat)) (st : IState) (line : StopTimeRow) :
    match stopTimesStep cfg created pkmap st line with
    | .ok st' => tablesIntact st' st
    | .error es => es.2 = st := by
  unfold stopTimesStep
  cases hf : stopTimeFields line with
  | none => simp [bind, Except.bind, hf, tablesIntact, pure, Except.pure]
  | some fields =>
    simp only [bind, Except.bind, hf, pure, Except.pure]
    cases hp : dictGet pkmap line.trip_id with
    | none => split_ifs <;> simp [bind, Except.bind, hp, tablesIntact, pure, Except.pure]
    | some pk => split_ifs <;> simp [bind, Except.bind, hp, tablesIntact, pure, Except.pure]

/-- The stop-time loop only appends stop-time rows. -/
theorem stopTimesPhase_frame (cfg : GtfsConfig) (created : List String)
    (pkmap : List (String × Nat)) :
    ∀ (rows : List StopTimeRow) (st : IState),
      match stopTimesPhase cfg created pkmap st rows with
      | .ok st' => tablesIntact st' st
      | .error es => tablesIntact es.2 st := by
  intro rows
  induction rows with
  | nil =>
    intro st
    simp [stopTimesPhase, tablesIntact, pure, Except.pure]
  | cons l ls ih =>
    intro st
    have hstep := stopTimesStep_frame cfg created pkmap st l
    unfold stopTimesPhase
    simp only [bind, Except.bind]
    cases hs : stopTimesStep cfg created pkmap st l with
    | error es =>
      rw [hs] at hstep
      simp only at hstep
      simpa [hstep] using tablesIntact_refl st
    | ok st1 =>
      rw [hs] at hstep
      simp only at hstep
      have hrest := ih st1
      cases hp : stopTimesPhase cfg created pkmap st1 ls with
      | error es2 =>
        rw [hp] at hrest
        simp only at hrest
        simpa [hp] using tablesIntact_trans hrest hstep
      | ok st2 =>
        rw [hp] at hrest
        simp only at hrest
        simpa [hp] using tablesIntact_trans hrest hstep

/-- C1 (amended): a static ingestion run is not all-or-nothing — there
is no transaction wrapper, each phase's writes commit as they happen.
When any error aborts the run (a trip row referencing an unknown route
or calendar, an unparseable stop time), the persistent state is exactly
the state reached after the completed agencies/routes/stops phases:
their writes to the operator, service, route and stop tables remain
committed, and no rollback to the pre-run state happens. -/
theorem c1_amended :
    ∀ (cfg : GtfsConfig) (st : IState) (feed : Feed) (e : String) (s' : IState),
      handle_zipfile cfg st feed = Except.error (e, s') →
      s'.operators = (preTripState cfg st feed).1.operators ∧
      s'.services = (preTripState cfg st feed).1.services ∧
      s'.routes = (preTripState cfg st feed).1.routes ∧
      s'.stops = (preTripState cfg st feed).1.stops := by
  intro cfg st feed e s' h
  unfold handle_zipfile at h
  simp only [bind, Except.bind] at h
  have htf := tripsPhase_frame cfg (preTripState cfg st feed).2.1 feed.calendars
    (groupStopTimes feed.stop_times) (preTripState cfg st feed).2.2 feed.trips
    { st := (preTripState cfg st feed).1 }
  cases ht : tripsPhase cfg (preTripState cfg st feed).2.1 feed.calendars
      (groupStopTimes feed.stop_times) (preTripState cfg st feed).2.2
      { st := (preTripState cfg st feed).1 } feed.trips with
  | error es =>
    rw [ht] at h htf
    simp only at htf
    have hes : es = (e, s') := by
      cases h
      rfl
    rw [hes] at htf
    exact htf
  | ok acc =>
    rw [ht] at h htf
    simp only at htf
    simp only at h
    have hsf := stopTimesPhase_frame cfg acc.created_trip_ids acc.trip_id_to_pk
      feed.stop_times acc.st
    cases hst : stopTimesPhase cfg acc.created_trip_ids acc.trip_id_to_pk acc.st
        feed.stop_times with
    | error es2 =>
      rw [hst] at h hsf
      simp only at hsf
      have hes : es2 = (e, s') := by
        cases h
        rfl
      rw [hes] at hsf
      exact tablesIntact_trans hsf htf
    | ok stF =>
      rw [hst] at h
      exact Except.noConfusion h

/-- Configuration for the C1 counterexample. -/
def c1Cfg : GtfsConfig := { sourceId := 1, sourceName := "Src" }

/-- A feed whose one trip references a calendar (`CAL1`) missing from
the calendar mapping: trip materialization raises `KeyError` after the
operators, services, routes and stops have already been written. -/
def c1Feed : Feed :=
  { agency := some [{ agency_id := some "A1", agency_name := "Agency One",
                      agency_url := some "http://agency.example" }],
    routes := [{ route_id := "R1", route_short_name := some "1",
                 route_long_name := some "One Line", agency_id := some "A1",
                 route_type := 3 }],
    stops := [{ stop_id := "S1", stop_name := "Stop One", stop_lat := 10, stop_lon := 20 }],
    trips := [{ route_id := "R1", trip_id := "T1", service_id := "CAL1" }],
    stop_times := [{ trip_id := "T1", stop_id := "S1", stop_sequence := 1,
                     arrival_time := "08:00:00", departure_time := "08:00:00" }],
    calendars := [] }

/-- C1 counterexample: starting from the empty store, this run aborts
with a `KeyError` during trip materialization, and the state it leaves
behind is neither the initial state (an operator, a service, a route and
a stop have been written) nor a fully-committed one (no trip was
written): ingestion is not all-or-nothing. -/
theorem c1_counterexample :
    handle_zipfile c1Cfg {} c1Feed
        = Except.error ("KeyError: calendar CAL1", (preTripState c1Cfg {} c1Feed).1) ∧
      (preTripState c1Cfg {} c1Feed).1 ≠ ({} : IState) ∧
      (preTripState c1Cfg {} c1Feed).1.operators ≠ [] ∧
      (preTripState c1Cfg {} c1Feed).1.routes ≠ [] ∧
      (preTripState c1Cfg {} c1Feed).1.stops ≠ [] ∧
      (preTripState c1Cfg {} c1Feed).1.trips = [] := by
  refine ⟨by decide, by decide, by decide, by decide, by decide, by decide⟩

/-- C1 witness: the amended theorem applied to the aborting run. -/
theorem c1_amended_witness :
    handle_zipfile c1Cfg {} c1Feed
        = Except.error ("KeyError: calendar CAL1", (preTripState c1Cfg {} c1Feed).1) ∧
      ((preTripState c1Cfg {} c1Feed).1.operators
          = (preTripState c1Cfg {} c1Feed).1.operators ∧
        (preTripState c1Cfg {} c1Feed).1.services
          = (preTripState c1Cfg {} c1Feed).1.services ∧
        (preTripState c1Cfg {} c1Feed).1.routes
          = (preTripState c1Cfg {} c1Feed).1.routes ∧
        (preTripState c1Cfg {} c1Feed).1.stops
          = (preTripState c1Cfg {} c1Feed).1.stops) :=
  ⟨by decide, c1_amended c1Cfg {} c1Feed "KeyError: calendar CAL1"
    (preTripState c1Cfg {} c1Feed).1 (by decide)⟩
